import Mathlib

/-!
Verification development for the Grip repository (Backend).

This file gives a shallow embedding, in Lean 4, of the parts of the Grip
backend that the specification's claims are about:

* the obligation projector and mark-paid logic
  (`Backend/app/features/bills/service.py`, `BillService._calculate_next_recurrence`
  and `BillService.mark_paid`);
* the surety matcher and its exclusion-rule precedence
  (`BillService.get_obligations_ledger`, lines 253-425);
* the sync orchestrator loop with its deduplication gate and error handling
  (`Backend/app/features/sync/service.py`, `SyncService.execute_sync` and
  `SyncService.call_brain_api`);
* the rule-based classifier/extractor
  (`Backend/app/features/sync/extractor.py`, `RuleBasedExtractor`).

Python `datetime.date` values are embedded as triples of naturals with the
chronological (lexicographic) order; `Decimal`/`float` amounts are embedded
as rationals; regular-expression objects (compiled with Python's `re`
module, an external library) are embedded as abstract match functions
`String → Bool` / `String → Option String` supplied through a configuration
record, mirroring the injected pattern tables; concrete instantiations used
by witnesses record the behaviour of the actual regexes on the concrete
inputs tested.
-/

namespace Grip

/-! ## Calendar model (Python `datetime.date` and `calendar.monthrange`) -/

/-- Gregorian leap-year test, as used by `calendar.monthrange`. -/
def isLeap (y : Nat) : Bool :=
  (y % 4 == 0 && y % 100 != 0) || y % 400 == 0

/-- Number of days in a month; `calendar.monthrange(y, m)[1]`.
Returns 0 for month numbers outside 1..12 (Python would raise there;
all uses in this file stay within 1..12). -/
def daysInMonth (y m : Nat) : Nat :=
  if m = 1 then 31 else if m = 2 then (if isLeap y then 29 else 28)
  else if m = 3 then 31 else if m = 4 then 30 else if m = 5 then 31
  else if m = 6 then 30 else if m = 7 then 31 else if m = 8 then 31
  else if m = 9 then 30 else if m = 10 then 31 else if m = 11 then 30
  else if m = 12 then 31 else 0

/-- Embedding of Python `datetime.date` as a (year, month, day) triple. -/
structure Date where
  year : Nat
  month : Nat
  day : Nat
deriving DecidableEq, Repr

/-- A date that `datetime.date` would accept. -/
def Date.Valid (d : Date) : Prop :=
  1 ≤ d.month ∧ d.month ≤ 12 ∧ 1 ≤ d.day ∧ d.day ≤ daysInMonth d.year d.month

instance (d : Date) : Decidable d.Valid := by
  unfold Date.Valid; infer_instance

/-- Chronological strict order on dates (Python `<` on `date` objects);
for dates this is the lexicographic order on (year, month, day). -/
def Date.Lt (a b : Date) : Prop :=
  a.year < b.year ∨ (a.year = b.year ∧
    (a.month < b.month ∨ (a.month = b.month ∧ a.day < b.day)))

/-- Chronological non-strict order on dates (Python `<=` on `date` objects). -/
def Date.Le (a b : Date) : Prop :=
  a.year < b.year ∨ (a.year = b.year ∧
    (a.month < b.month ∨ (a.month = b.month ∧ a.day ≤ b.day)))

instance (a b : Date) : Decidable (Date.Lt a b) := by
  unfold Date.Lt; infer_instance

instance (a b : Date) : Decidable (Date.Le a b) := by
  unfold Date.Le; infer_instance

theorem Date.not_le_iff_lt (a b : Date) : ¬ Date.Le a b ↔ Date.Lt b a := by
  unfold Date.Le Date.Lt; omega

theorem Date.not_lt_iff_le (a b : Date) : ¬ Date.Lt a b ↔ Date.Le b a := by
  unfold Date.Le Date.Lt; omega

theorem Date.lt_trans {a b c : Date} (h1 : Date.Lt a b) (h2 : Date.Lt b c) :
    Date.Lt a c := by
  unfold Date.Lt at *; omega

theorem Date.le_of_lt {a b : Date} (h : Date.Lt a b) : Date.Le a b := by
  unfold Date.Lt at h; unfold Date.Le; omega

/-- The calendar day after `d` (the action of `timedelta(days=1)`). -/
def succDate (d : Date) : Date :=
  if d.day < daysInMonth d.year d.month then ⟨d.year, d.month, d.day + 1⟩
  else if d.month < 12 then ⟨d.year, d.month + 1, 1⟩
  else ⟨d.year + 1, 1, 1⟩

/-- Adding `n` days to a date (`d + timedelta(days=n)`). -/
def addDays (n : Nat) (d : Date) : Date :=
  match n with
  | 0 => d
  | n + 1 => succDate (addDays n d)

theorem succDate_lt (d : Date) : Date.Lt d (succDate d) := by
  unfold succDate Date.Lt
  split
  · dsimp only; omega
  · split <;> (dsimp only; omega)

theorem addDays_lt (n : Nat) (d : Date) (h : 1 ≤ n) :
    Date.Lt d (addDays n d) := by
  induction n with
  | zero => omega
  | succ k ih =>
    match k, ih with
    | 0, _ => exact succDate_lt d
    | k + 1, ih => exact Date.lt_trans (ih (by omega)) (succDate_lt _)

/-! ## Obligation projector (`BillService._calculate_next_recurrence`) -/

/-- Embedding of `BillService._calculate_next_recurrence` (bills/service.py,
lines 447-477): build a candidate in the reference month with the day
clamped to the month length; return it if it is on or after the reference
date, otherwise roll to the next month (December wraps to January of the
next year) and clamp again.  The Python `try/except ValueError` around the
first candidate cannot fire for `recurrence_day ≥ 1` (the clamped day is
then a valid day of the month), which is the range used by every caller. -/
def calculateNextRecurrence (recurrenceDay : Nat) (referenceDate : Date) : Date :=
  let nextDate : Date := ⟨referenceDate.year, referenceDate.month,
    min recurrenceDay (daysInMonth referenceDate.year referenceDate.month)⟩
  if Date.Le referenceDate nextDate then nextDate
  else
    let nextMonth := if referenceDate.month = 12 then 1 else referenceDate.month + 1
    let nextYear := if referenceDate.month = 12 then referenceDate.year + 1 else referenceDate.year
    ⟨nextYear, nextMonth, min recurrenceDay (daysInMonth nextYear nextMonth)⟩

theorem calculateNextRecurrence_ge (r : Nat) (ref : Date) :
    Date.Le ref (calculateNextRecurrence r ref) := by
  unfold calculateNextRecurrence
  dsimp only
  split
  · assumption
  · by_cases hm : ref.month = 12 <;> simp [hm, Date.Le]

/-! ## Mark-paid for recurring bills (`BillService.mark_paid`) -/

/-- The fields of the `Bill` model that `mark_paid` reads or writes. -/
structure Bill where
  due_date : Date
  recurrence_day : Option Nat
  is_recurring : Bool
  is_paid : Bool
deriving DecidableEq, Repr

/-- Python's `bill.recurrence_day or bill.due_date.day`: the stored
recurrence day unless it is `None` or `0` (both falsy). -/
def effectiveRecurrenceDay (b : Bill) : Nat :=
  match b.recurrence_day with
  | some n => if n = 0 then b.due_date.day else n
  | none => b.due_date.day

/-- Embedding of `BillService.mark_paid` (bills/service.py, lines 109-144)
for a bill that exists.  `today` stands for `self._get_today()`.  For a
recurring bill being marked paid: compute the next occurrence from today;
if it is not strictly after the stored due date, recompute from
`due_date + timedelta(days=32)`; reset the paid flag.  Otherwise just store
the requested paid flag. -/
def markPaid (today : Date) (paid : Bool) (b : Bill) : Bill :=
  if paid && b.is_recurring then
    let rDay := effectiveRecurrenceDay b
    let nextDue := calculateNextRecurrence rDay today
    let nextDue :=
      if Date.Le nextDue b.due_date then
        calculateNextRecurrence rDay (addDays 32 b.due_date)
      else nextDue
    { b with due_date := nextDue, is_paid := false }
  else
    { b with is_paid := paid }

theorem Date.lt_of_lt_of_le {a b c : Date} (h1 : Date.Lt a b) (h2 : Date.Le b c) :
    Date.Lt a c := by
  unfold Date.Lt at *; unfold Date.Le at h2; omega

/-! ## Claim C2 -/

/-- C2 counterexample.  The claim asserts that with recurrence day 31 and a
30-day reference month, a reference date on day 30 of that month yields day
30 of the *next* month.  In the code the clamped candidate equals the
reference date, `candidate >= reference` holds, and the reference date
itself is returned: `_calculate_next_recurrence(31, date(2025, 4, 30))`
is April 30, 2025, not May 30, 2025. -/
theorem calculateNextRecurrence_sameDay_counterexample :
    calculateNextRecurrence 31 ⟨2025, 4, 30⟩ = ⟨2025, 4, 30⟩ ∧
    calculateNextRecurrence 31 ⟨2025, 4, 30⟩ ≠ ⟨2025, 5, 30⟩ := by
  decide

/-- C2 (amended): the next-occurrence computation builds a candidate in the
reference month with the day clamped to that month's last valid day,
returns it whenever candidate ≥ reference (equality included, so a
reference date equal to the clamped candidate is returned unchanged), and
otherwise rolls to the following month (December wraps to January of the
next year) and clamps again; the result is never before the reference
date, and recurrence day 31 in 30-day April yields April 30. -/
theorem calculateNextRecurrence_spec (r : Nat) (ref : Date) :
    Date.Le ref (calculateNextRecurrence r ref) ∧
    (Date.Le ref ⟨ref.year, ref.month, min r (daysInMonth ref.year ref.month)⟩ →
      calculateNextRecurrence r ref =
        ⟨ref.year, ref.month, min r (daysInMonth ref.year ref.month)⟩) ∧
    (¬ Date.Le ref ⟨ref.year, ref.month, min r (daysInMonth ref.year ref.month)⟩ →
      calculateNextRecurrence r ref =
        ⟨if ref.month = 12 then ref.year + 1 else ref.year,
         if ref.month = 12 then 1 else ref.month + 1,
         min r (daysInMonth (if ref.month = 12 then ref.year + 1 else ref.year)
                  (if ref.month = 12 then 1 else ref.month + 1))⟩) ∧
    calculateNextRecurrence 31 ⟨2025, 4, 15⟩ = ⟨2025, 4, 30⟩ := by
  refine ⟨calculateNextRecurrence_ge r ref, ?_, ?_, by decide⟩
  · intro h
    unfold calculateNextRecurrence
    rw [if_pos h]
  · intro h
    unfold calculateNextRecurrence
    rw [if_neg h]

/-- C2 witness: applying the amended theorem at recurrence day 31 and
reference date April 30, 2025 (a 30-day month, reference on day 30): the
candidate is on or after the reference date, so the same date is returned. -/
theorem calculateNextRecurrence_spec_witness :
    calculateNextRecurrence 31 ⟨2025, 4, 30⟩ = ⟨2025, 4, 30⟩ :=
  (calculateNextRecurrence_spec 31 ⟨2025, 4, 30⟩).2.1 (by decide)

/-! ## Claim C9 -/

set_option maxRecDepth 4000 in
/-- C9 counterexample.  The claim asserts the new due date is always in a
later month than the current due date, and that the fallback only forces
the search into the following month.  Both fail: (i) with recurrence day
20, due date January 5, 2025 and today January 10, 2025, mark-paid yields
January 20, 2025 — a later day of the *same* month; (ii) with recurrence
day 31, due date January 31, 2025 and today January 31, 2025, the fallback
adds 32 days to the due date, landing on March 4, and yields March 31,
2025 — skipping February entirely, two months ahead. -/
theorem markPaid_laterMonth_counterexample :
    (markPaid ⟨2025, 1, 10⟩ true ⟨⟨2025, 1, 5⟩, some 20, true, false⟩).due_date
      = ⟨2025, 1, 20⟩ ∧
    (markPaid ⟨2025, 1, 31⟩ true ⟨⟨2025, 1, 31⟩, some 31, true, false⟩).due_date
      = ⟨2025, 3, 31⟩ := by
  decide

/-- C9 (amended): marking a recurring obligation paid computes the next
occurrence from today and, if that result is not strictly after the current
due date, recomputes it from due date + 32 days (which lies in the month
after the due month for due days up to 27, but can lie two months ahead for
a late-month due date); the new due date is always strictly after the
current due date — possibly later in the same month when the recurrence day
falls after the stored due day — and never the same date repeated; after
advancing, the paid flag is reset to false. -/
theorem markPaid_recurring_advances (today : Date) (b : Bill)
    (hrec : b.is_recurring = true) :
    Date.Lt b.due_date (markPaid today true b).due_date ∧
    (markPaid today true b).is_paid = false := by
  have hdue : Date.Lt b.due_date (markPaid today true b).due_date := by
    unfold markPaid
    simp only [hrec, Bool.true_and, if_true]
    split
    · exact Date.lt_of_lt_of_le (addDays_lt 32 b.due_date (by omega))
        (calculateNextRecurrence_ge _ _)
    · rename_i h
      exact (Date.not_le_iff_lt _ _).mp h
  have hpaid : (markPaid today true b).is_paid = false := by
    unfold markPaid
    simp [hrec]
  exact ⟨hdue, hpaid⟩

/-- C9 witness: a recurring obligation due today (due day 15, today
January 15, 2025) advances to a strictly later due date with the paid flag
reset. -/
theorem markPaid_recurring_advances_witness :
    Date.Lt (⟨2025, 1, 15⟩ : Date)
      (markPaid ⟨2025, 1, 15⟩ true ⟨⟨2025, 1, 15⟩, some 15, true, false⟩).due_date ∧
    (markPaid ⟨2025, 1, 15⟩ true ⟨⟨2025, 1, 15⟩, some 15, true, false⟩).is_paid = false :=
  markPaid_recurring_advances ⟨2025, 1, 15⟩ ⟨⟨2025, 1, 15⟩, some 15, true, false⟩ rfl

/-! ## String helpers shared by the surety matcher and the extractor -/

/-- Substring test on character lists: `needle` occurs inside `hay`. -/
def charsInfixOf (needle : List Char) : List Char → Bool
  | [] => needle.isEmpty
  | c :: rest => needle.isPrefixOf (c :: rest) || charsInfixOf needle rest

/-- Python's substring containment `needle in hay` for strings. -/
def pyIn (needle hay : String) : Bool :=
  charsInfixOf needle.data hay.data

/-- Python's `abs()` on amounts. -/
def pyAbs (q : Rat) : Rat :=
  if q < 0 then -q else q

/-- ASCII lowercase of one character. -/
def lowerChar (c : Char) : Char :=
  if 'A' ≤ c ∧ c ≤ 'Z' then Char.ofNat (c.toNat + 32) else c

/-- Python's `str.lower()` (the strings compared by this code are ASCII). -/
def pyLower (s : String) : String :=
  String.mk (s.data.map lowerChar)

/-! ## Surety matcher (`BillService.get_obligations_ledger`, lines 253-425)

The matcher reads persisted transactions and exclusion rules.  The
`Transaction` model itself lives in the transactions feature, which is not
part of the sources here; its fields are modelled from the spec:
PersistedTransaction (§3) — identifier, signed amount, merchant (optional),
subcategory, transaction date and the surety-eligible flag, exactly the
fields `get_obligations_ledger` reads. -/

/-- Modelled from the spec: PersistedTransaction (§3), restricted to the
fields read by the surety matcher.  Identifiers stand for the UUID primary
keys; `merchant_name` is optional (the code guards it with `or ""`), while
`sub_category` is accessed unguarded (`.lower()`) and so is a plain string. -/
structure Txn where
  id : Nat
  amount : Rat
  merchant_name : Option String
  sub_category : String
  transaction_date : Date
  is_surety : Bool
deriving DecidableEq, Repr

/-- The fields of the `BillExclusion` model read by the matcher. -/
structure BillExclusion where
  source_transaction_id : Option Nat
  merchant_pattern : Option String
  subcategory_pattern : Option String
  exclusion_type : String
deriving DecidableEq, Repr

/-- Lowered optional pattern: Python's
`e.pattern.lower() if e.pattern else None` — both `None` and the empty
string become the wildcard `none`. -/
def pyOptLower (o : Option String) : Option String :=
  match o with
  | some s => if s = "" then none else some (pyLower s)
  | none => none

/-- Source-transaction ids of SKIP rules (service.py line 253); the Python
set comprehension keeps ids that are present (UUIDs are always truthy). -/
def skippedSourceIds (es : List BillExclusion) : List Nat :=
  es.filterMap (fun e =>
    if e.exclusion_type == "SKIP" then e.source_transaction_id else none)

/-- Source-transaction ids of MANUAL_PAID rules (service.py line 254). -/
def manualPaidIds (es : List BillExclusion) : List Nat :=
  es.filterMap (fun e =>
    if e.exclusion_type == "MANUAL_PAID" then e.source_transaction_id else none)

/-- Lowercased (merchant, subcategory) pattern pairs of PERMANENT rules
(service.py lines 255-259). -/
def permanentPatterns (es : List BillExclusion) :
    List (Option String × Option String) :=
  (es.filter (fun e => e.exclusion_type == "PERMANENT")).map
    (fun e => (pyOptLower e.merchant_pattern, pyOptLower e.subcategory_pattern))

/-- One PERMANENT pattern pair matches a transaction's lowered merchant and
subcategory; a `none` side is the wildcard that matches anything
(service.py lines 327-330). -/
def permMatches (pm ps : String) (pat : Option String × Option String) : Bool :=
  (match pat.1 with | none => true | some emp => emp == pm) &&
  (match pat.2 with | none => true | some esp => esp == ps)

/-- Embedding of the exclusion-status computation for one previous-period
candidate (service.py lines 307-341).  The code sets `is_excluded` and
`exclusion_reason` sequentially: the SKIP check, then the MANUAL_PAID check
(not guarded by `if not is_excluded`, so it overwrites a SKIP result), then
the PERMANENT patterns and the covered signatures, both guarded by
`if not is_excluded`. -/
def computeExclusion (skipIds manualIds : List Nat)
    (permPatterns : List (Option String × Option String))
    (coveredSignatures : List (String × Rat)) (t : Txn) : Bool × String :=
  let s1 : Bool × String :=
    if skipIds.contains t.id then (true, "SKIPPED") else (false, "")
  let s2 : Bool × String :=
    if manualIds.contains t.id then (true, "PAID") else s1
  let s3 : Bool × String :=
    if !s2.1 then
      let pm := pyLower (t.merchant_name.getD "")
      let ps := pyLower t.sub_category
      if permPatterns.any (permMatches pm ps) then (true, "TERMINATED") else s2
    else s2
  if !s3.1 then
    if coveredSignatures.contains (pyLower t.sub_category, t.amount) then
      (true, "COVERED")
    else s3
  else s3

/-- Estimated due date of the current-period instance (service.py lines
344-348): today's month, with the previous transaction's day-of-month
clamped to the number of days in the current month.  The bare
`except` branch cannot fire: the clamped day is always a valid day of
today's month for a valid transaction date. -/
def estimatedDate (today : Date) (currMonthEndDay : Nat) (p : Txn) : Date :=
  ⟨today.year, today.month, min p.transaction_date.day currMonthEndDay⟩

/-- The match predicate between a previous-period candidate and a
current-period transaction (service.py lines 355-366): equal absolute
amounts, and then lowercased merchant equality, or lowercased subcategory
equality, or — when both lowered merchant names are nonempty — substring
containment in either direction. -/
def txnMatches (p c : Txn) : Bool :=
  pyAbs p.amount == pyAbs c.amount &&
    (let pm := pyLower (p.merchant_name.getD "")
     let cm := pyLower (c.merchant_name.getD "")
     pm == cm || pyLower p.sub_category == pyLower c.sub_category ||
       (pm != "" && cm != "" && (pyIn pm cm || pyIn cm pm)))

/-- First unclaimed current-period transaction matching the candidate
(service.py lines 352-369): the scan skips transactions already claimed
(`matched_curr_ids`) and the first match wins. -/
def findPartner (matchedIds : List Nat) (currTxns : List Txn) (p : Txn) :
    Option Txn :=
  currTxns.find? (fun c => !matchedIds.contains c.id && txnMatches p c)

/-- A derived ledger row (`IdentifiedObligation` restricted to the fields
the surety branch fills). -/
structure LedgerRow where
  rid : String
  title : String
  amount : Rat
  due_date : Date
  rtype : String
  status : String
  sub_category : String
  source_id : Option String
deriving DecidableEq, Repr

/-- Python's `p_txn.merchant_name or p_txn.sub_category`: the merchant
unless it is `None` or empty. -/
def pyOrStr (o : Option String) (d : String) : String :=
  match o with
  | some s => if s = "" then d else s
  | none => d

/-- The auto-detected surety row emitted for a candidate (service.py lines
373-382 and 406-415); only the status differs between the two sites. -/
def mkAutoRow (p : Txn) (pDate : Date) (status : String) : LedgerRow :=
  { rid := "auto-" ++ toString p.id
    title := pyOrStr p.merchant_name p.sub_category ++ " (Auto-detected)"
    amount := pyAbs p.amount
    due_date := pDate
    rtype := "SURETY_TXN"
    status := status
    sub_category := p.sub_category
    source_id := some (toString p.id) }

/-- Read-only inputs of the surety loop. -/
structure SuretyCfg where
  today : Date
  thresholdDate : Date
  currMonthEndDay : Nat
  includeHidden : Bool
  skipIds : List Nat
  manualIds : List Nat
  permPatterns : List (Option String × Option String)
  coveredSignatures : List (String × Rat)
  currTxns : List Txn

/-- Mutable state threaded through the surety loop: the claimed
current-transaction ids, the accumulated ledger rows and the two totals. -/
structure SuretyState where
  matchedIds : List Nat
  items : List LedgerRow
  projectedTotal : Rat
  unpaidTotal : Rat
deriving DecidableEq, Repr

/-- One iteration of the surety loop (service.py lines 307-419) for a
previous-period candidate `p`: compute the exclusion status, the estimated
date, search the current period for an unclaimed partner; on a match claim
the partner and emit a PAID row only under full visibility; otherwise drop
hidden excluded candidates, then emit a row under the exclusion label or
the date status, updating the projected/unpaid totals for PROJECTED and
OVERDUE rows. -/
def processCandidate (cfg : SuretyCfg) (st : SuretyState) (p : Txn) :
    SuretyState :=
  let ex := computeExclusion cfg.skipIds cfg.manualIds cfg.permPatterns
    cfg.coveredSignatures p
  let pDate := estimatedDate cfg.today cfg.currMonthEndDay p
  match findPartner st.matchedIds cfg.currTxns p with
  | some c =>
    let st1 := { st with matchedIds := c.id :: st.matchedIds }
    if cfg.includeHidden then
      { st1 with items := st1.items ++ [mkAutoRow p pDate "PAID"] }
    else st1
  | none =>
    if ex.1 && !cfg.includeHidden then st
    else
      let dateStatus := if Date.Lt pDate cfg.today then "OVERDUE" else "PROJECTED"
      let finalStatus := if ex.1 then ex.2 else dateStatus
      if (Date.Le cfg.today pDate ∧ Date.Le pDate cfg.thresholdDate) ∨
          finalStatus ∈ ["OVERDUE", "SKIPPED", "TERMINATED", "COVERED", "PAID"] then
        if cfg.includeHidden || !ex.1 then
          { st with
            items := st.items ++ [mkAutoRow p pDate finalStatus]
            projectedTotal := st.projectedTotal +
              (if finalStatus == "PROJECTED" then pyAbs p.amount else 0)
            unpaidTotal := st.unpaidTotal +
              (if finalStatus == "OVERDUE" then pyAbs p.amount else 0) }
        else st
      else st

/-- The surety loop over all previous-period candidates (service.py line
307, `for p_txn in past_txns`). -/
def suretyLoop (cfg : SuretyCfg) (st : SuretyState) (pastTxns : List Txn) :
    SuretyState :=
  pastTxns.foldl (processCandidate cfg) st

/-- The previous/current transaction lists are filtered to surety-eligible
ones (service.py lines 302-303): the explicit flag, or a nonempty
subcategory whose lowercase form is marked as surety. -/
def suretyEligible (suretySubs : List String) (ts : List Txn) : List Txn :=
  ts.filter (fun t =>
    t.is_surety || (t.sub_category != "" &&
      suretySubs.contains (pyLower t.sub_category)))

/-! ## Claim C1 -/

/-- C1 counterexample.  The claim asserts the priority SKIP > MANUAL_PAID:
whenever a SKIP rule applies the emitted status is SKIPPED even if a
MANUAL_PAID rule for the same source transaction exists.  In the code the
MANUAL_PAID check is not guarded by `if not is_excluded` and overwrites the
SKIP result: with both a SKIP and a MANUAL_PAID rule for source transaction
7, the computed status is PAID, not SKIPPED. -/
theorem computeExclusion_skip_manual_counterexample :
    computeExclusion
      (skippedSourceIds [⟨some 7, none, none, "SKIP"⟩, ⟨some 7, none, none, "MANUAL_PAID"⟩])
      (manualPaidIds [⟨some 7, none, none, "SKIP"⟩, ⟨some 7, none, none, "MANUAL_PAID"⟩])
      (permanentPatterns [⟨some 7, none, none, "SKIP"⟩, ⟨some 7, none, none, "MANUAL_PAID"⟩])
      [] ⟨7, -499, some "Netflix", "Subscriptions", ⟨2025, 2, 10⟩, true⟩
      = (true, "PAID") ∧
    ((true, "PAID") : Bool × String) ≠ (true, "SKIPPED") := by
  constructor
  · rfl
  · decide

/-- C1 (amended): the exclusion status of a previous-period candidate is
computed with the priority MANUAL_PAID > SKIP > PERMANENT > COVERED — the
MANUAL_PAID check runs after the SKIP check without an `is_excluded` guard
and overwrites it, while PERMANENT and COVERED are only reached when no
exact source-transaction rule applied.  In particular a transaction covered
by both a SKIP rule and a PERMANENT pattern still reports SKIPPED, not
TERMINATED. -/
theorem computeExclusion_priority (skipIds manualIds : List Nat)
    (permPatterns : List (Option String × Option String))
    (covered : List (String × Rat)) (t : Txn) :
    computeExclusion skipIds manualIds permPatterns covered t =
      (if manualIds.contains t.id then (true, "PAID")
       else if skipIds.contains t.id then (true, "SKIPPED")
       else if permPatterns.any
           (permMatches (pyLower (t.merchant_name.getD "")) (pyLower t.sub_category)) then
         (true, "TERMINATED")
       else if covered.contains (pyLower t.sub_category, t.amount) then
         (true, "COVERED")
       else (false, "")) := by
  unfold computeExclusion
  by_cases h1 : manualIds.contains t.id <;>
    by_cases h2 : skipIds.contains t.id <;>
      simp [h1, h2] <;> split_ifs <;> simp_all

/-- C1 auxiliary instance: with a SKIP rule for source transaction 7 and a
PERMANENT pattern matching its merchant, but no MANUAL_PAID rule, the
status is SKIPPED (SKIP still outranks PERMANENT). -/
theorem computeExclusion_skip_over_permanent :
    computeExclusion
      (skippedSourceIds [⟨some 7, none, none, "SKIP"⟩, ⟨none, some "Netflix", none, "PERMANENT"⟩])
      (manualPaidIds [⟨some 7, none, none, "SKIP"⟩, ⟨none, some "Netflix", none, "PERMANENT"⟩])
      (permanentPatterns [⟨some 7, none, none, "SKIP"⟩, ⟨none, some "Netflix", none, "PERMANENT"⟩])
      [] ⟨7, -499, some "Netflix", "Subscriptions", ⟨2025, 2, 10⟩, true⟩
      = (true, "SKIPPED") := by
  rfl

/-! ## Claim C5 -/

/-- Refinement definition following the claim's own wording of the match
predicate (for comparison with the code's `txnMatches`): equal absolute
amount, plus exact merchant equality or exact subcategory equality or
case-insensitive substring containment between merchant names. -/
def specTxnMatch (p c : Txn) : Bool :=
  pyAbs p.amount == pyAbs c.amount &&
    (p.merchant_name.getD "" == c.merchant_name.getD "" ||
     p.sub_category == c.sub_category ||
     pyIn (pyLower (p.merchant_name.getD "")) (pyLower (c.merchant_name.getD "")) ||
     pyIn (pyLower (c.merchant_name.getD "")) (pyLower (p.merchant_name.getD "")))

/-- C5 counterexample.  Per the claim's match predicate, the candidate
(merchant "Alpha", subcategory "Rent", amount 100) has no match among the
current transactions — the only current transaction has merchant "Beta"
and subcategory "RENT", so neither exact merchant equality, nor exact
subcategory equality, nor merchant-name containment holds — and, being
non-excluded with its estimated date (March 10) inside [today = March 5,
horizon = April 4], the claim requires a PROJECTED row added to the
projected total.  The code, however, compares subcategories
case-insensitively ("rent" = "rent"), finds a partner, and emits nothing:
no items and a zero projected total. -/
theorem suretyMatch_caseSensitivity_counterexample :
    specTxnMatch ⟨1, -100, some "Alpha", "Rent", ⟨2025, 2, 10⟩, true⟩
        ⟨2, -100, some "Beta", "RENT", ⟨2025, 3, 8⟩, true⟩ = false ∧
    computeExclusion [] [] [] []
        ⟨1, -100, some "Alpha", "Rent", ⟨2025, 2, 10⟩, true⟩ = (false, "") ∧
    Date.Le ⟨2025, 3, 5⟩
      (estimatedDate ⟨2025, 3, 5⟩ 31 ⟨1, -100, some "Alpha", "Rent", ⟨2025, 2, 10⟩, true⟩) ∧
    Date.Le
      (estimatedDate ⟨2025, 3, 5⟩ 31 ⟨1, -100, some "Alpha", "Rent", ⟨2025, 2, 10⟩, true⟩)
      ⟨2025, 4, 4⟩ ∧
    (processCandidate
        ⟨⟨2025, 3, 5⟩, ⟨2025, 4, 4⟩, 31, false, [], [], [], [],
          [⟨2, -100, some "Beta", "RENT", ⟨2025, 3, 8⟩, true⟩]⟩
        ⟨[], [], 0, 0⟩
        ⟨1, -100, some "Alpha", "Rent", ⟨2025, 2, 10⟩, true⟩).items = [] ∧
    (processCandidate
        ⟨⟨2025, 3, 5⟩, ⟨2025, 4, 4⟩, 31, false, [], [], [], [],
          [⟨2, -100, some "Beta", "RENT", ⟨2025, 3, 8⟩, true⟩]⟩
        ⟨[], [], 0, 0⟩
        ⟨1, -100, some "Alpha", "Rent", ⟨2025, 2, 10⟩, true⟩).projectedTotal = 0 := by
  refine ⟨by decide, by decide, by decide, by decide, rfl, rfl⟩

/-- C5 (amended): in the surety matcher with full visibility off, matching
uses equal absolute amount plus case-insensitive merchant equality, or
case-insensitive subcategory equality, or case-insensitive substring
containment between nonempty merchant names, each current transaction
claimable by at most one candidate.  A candidate with a match yields no
ledger row and no change to any total (only the claimed-id set grows); an
unmatched non-excluded candidate whose estimated date lies in
[today, horizon] yields a PROJECTED row added to the projected total; one
whose estimated date is before today yields an OVERDUE row added to the
unpaid total; otherwise nothing is emitted. -/
theorem suretyMatcher_spec (cfg : SuretyCfg) (st : SuretyState) (p : Txn)
    (hHid : cfg.includeHidden = false) :
    (∀ c, findPartner st.matchedIds cfg.currTxns p = some c →
       processCandidate cfg st p = { st with matchedIds := c.id :: st.matchedIds }) ∧
    (findPartner st.matchedIds cfg.currTxns p = none →
     (computeExclusion cfg.skipIds cfg.manualIds cfg.permPatterns
         cfg.coveredSignatures p).1 = false →
      (Date.Le cfg.today (estimatedDate cfg.today cfg.currMonthEndDay p) →
       Date.Le (estimatedDate cfg.today cfg.currMonthEndDay p) cfg.thresholdDate →
        processCandidate cfg st p =
          { st with
            items := st.items ++
              [mkAutoRow p (estimatedDate cfg.today cfg.currMonthEndDay p) "PROJECTED"]
            projectedTotal := st.projectedTotal + pyAbs p.amount }) ∧
      (Date.Lt (estimatedDate cfg.today cfg.currMonthEndDay p) cfg.today →
        processCandidate cfg st p =
          { st with
            items := st.items ++
              [mkAutoRow p (estimatedDate cfg.today cfg.currMonthEndDay p) "OVERDUE"]
            unpaidTotal := st.unpaidTotal + pyAbs p.amount }) ∧
      (Date.Le cfg.today (estimatedDate cfg.today cfg.currMonthEndDay p) →
       ¬ Date.Le (estimatedDate cfg.today cfg.currMonthEndDay p) cfg.thresholdDate →
        processCandidate cfg st p = st)) := by
  constructor
  · intro c hc
    unfold processCandidate
    rw [hc]
    simp [hHid]
  · intro hnone hex
    refine ⟨?_, ?_, ?_⟩
    · intro h1 h2
      unfold processCandidate
      rw [hnone]
      have hnl : ¬ Date.Lt (estimatedDate cfg.today cfg.currMonthEndDay p) cfg.today :=
        (Date.not_lt_iff_le _ _).mpr h1
      simp [hHid, hex, hnl, h1, h2]
    · intro hlt
      unfold processCandidate
      rw [hnone]
      have hl : Date.Lt (estimatedDate cfg.today cfg.currMonthEndDay p) cfg.today := hlt
      simp [hHid, hex, hl]
    · intro h1 h2
      unfold processCandidate
      rw [hnone]
      have hnl : ¬ Date.Lt (estimatedDate cfg.today cfg.currMonthEndDay p) cfg.today :=
        (Date.not_lt_iff_le _ _).mpr h1
      simp [hHid, hex, hnl, h1, h2]

/-- C5 witness: an unmatched, non-excluded Netflix candidate from February
(amount 499, day 10) with today March 5, 2025 and horizon April 4, 2025:
the estimated date March 10 falls inside the window and a PROJECTED row
for 499 is emitted and added to the projected total. -/
theorem suretyMatcher_spec_witness :
    processCandidate ⟨⟨2025, 3, 5⟩, ⟨2025, 4, 4⟩, 31, false, [], [], [], [], []⟩
        ⟨[], [], 0, 0⟩ ⟨1, -499, some "Netflix", "Subscriptions", ⟨2025, 2, 10⟩, true⟩ =
      { matchedIds := [],
        items := [mkAutoRow ⟨1, -499, some "Netflix", "Subscriptions", ⟨2025, 2, 10⟩, true⟩
          ⟨2025, 3, 10⟩ "PROJECTED"],
        projectedTotal := 0 + pyAbs (-499),
        unpaidTotal := 0 } :=
  ((suretyMatcher_spec
      ⟨⟨2025, 3, 5⟩, ⟨2025, 4, 4⟩, 31, false, [], [], [], [], []⟩
      ⟨[], [], 0, 0⟩ ⟨1, -499, some "Netflix", "Subscriptions", ⟨2025, 2, 10⟩, true⟩
      rfl).2 rfl rfl).1 (by decide) (by decide)

/-! ## Claim C10 -/

/-- C10: an excluded previous-period candidate still participates in
current-period matching before its exclusion is applied.  When it finds a
partner: the partner's id is added to the claimed set; with full visibility
off the only state change is the claimed set (no row, no totals); with full
visibility on a row with status PAID — not the exclusion label — is
emitted; the partner was not previously claimed; and no later candidate
can be assigned that partner again, since the scan skips claimed ids. -/
theorem excludedCandidate_matching (cfg : SuretyCfg) (st : SuretyState)
    (p c : Txn)
    (hex : (computeExclusion cfg.skipIds cfg.manualIds cfg.permPatterns
      cfg.coveredSignatures p).1 = true)
    (hc : findPartner st.matchedIds cfg.currTxns p = some c) :
    (processCandidate cfg st p).matchedIds = c.id :: st.matchedIds ∧
    (cfg.includeHidden = false →
      processCandidate cfg st p = { st with matchedIds := c.id :: st.matchedIds }) ∧
    (cfg.includeHidden = true →
      processCandidate cfg st p =
        { st with
          matchedIds := c.id :: st.matchedIds
          items := st.items ++
            [mkAutoRow p (estimatedDate cfg.today cfg.currMonthEndDay p) "PAID"] }) ∧
    st.matchedIds.contains c.id = false ∧
    (∀ p', findPartner (c.id :: st.matchedIds) cfg.currTxns p' ≠ some c) := by
  have hpred := List.find?_some hc
  have hnotin : st.matchedIds.contains c.id = false := by
    simp only [Bool.and_eq_true, Bool.not_eq_true'] at hpred
    exact hpred.1
  refine ⟨?_, ?_, ?_, hnotin, ?_⟩
  · unfold processCandidate
    rw [hc]
    by_cases h : cfg.includeHidden <;> simp [h]
  · intro h
    unfold processCandidate
    rw [hc]
    simp [h]
  · intro h
    unfold processCandidate
    rw [hc]
    simp [h]
  · intro p' h
    have := List.find?_some h
    simp at this

/-- C10 witness: a candidate excluded by a SKIP rule (source transaction 1)
that still matches the current-period transaction with id 9: with full
visibility off, the only state change is that id 9 is claimed — no ledger
row is emitted and no total changes, and the status is not the exclusion
label. -/
theorem excludedCandidate_matching_witness :
    processCandidate
        ⟨⟨2025, 3, 5⟩, ⟨2025, 4, 4⟩, 31, false, [1], [], [], [],
          [⟨9, -499, some "Netflix", "Subscriptions", ⟨2025, 3, 9⟩, true⟩]⟩
        ⟨[], [], 0, 0⟩
        ⟨1, -499, some "Netflix", "Subscriptions", ⟨2025, 2, 9⟩, true⟩ =
      { matchedIds := [9], items := [], projectedTotal := 0, unpaidTotal := 0 } :=
  ((excludedCandidate_matching
      ⟨⟨2025, 3, 5⟩, ⟨2025, 4, 4⟩, 31, false, [1], [], [], [],
        [⟨9, -499, some "Netflix", "Subscriptions", ⟨2025, 3, 9⟩, true⟩]⟩
      ⟨[], [], 0, 0⟩
      ⟨1, -499, some "Netflix", "Subscriptions", ⟨2025, 2, 9⟩, true⟩
      ⟨9, -499, some "Netflix", "Subscriptions", ⟨2025, 3, 9⟩, true⟩
      (by decide) (by decide)).2.1 rfl)

/-! ## Sync orchestrator (`SyncService.execute_sync`, sync/service.py lines 366-513)

The orchestrator fetches messages, then runs a sequential per-message loop:
compute the dedup fingerprint, skip if already recorded, run the extraction
pipeline, skip zero-amount candidates (counting LLM failures separately),
persist the record, and attempt a best-effort wealth mapping whose failure
is caught locally.  The mail fetch, the extraction pipeline between the
dedup gate and the persisted record (`call_brain_api`, the merchant-mapping
override, sign determination, the surety-flag query, `create_transaction`)
and the wealth matcher are external collaborators or async calls whose
outcomes are supplied by an environment; an exception in that unprotected
region is only caught by the outer handler of `execute_sync` and aborts the
remaining messages. -/

/-- A raw Gmail message as assembled by `fetch_gmail_changes`. -/
structure Msg where
  mid : String
  internalDate : String
  snippet : String
  subject : String
  sender : String
  body : String
deriving DecidableEq, Repr

/-- The dedup payload f-string of service.py line 398: message id and
delivery timestamp joined by a colon. -/
def dedupPayload (m : Msg) : String :=
  m.mid ++ ":" ++ m.internalDate

/-- The content hash of service.py line 399.  `hashlib.sha256(...).hexdigest()`
is a library routine embedded as an arbitrary deterministic function
`hashFn`, universally quantified in the theorems: the loop only ever
compares digests for equality. -/
def fingerprint (hashFn : String → String) (m : Msg) : String :=
  hashFn (dedupPayload m)

/-- Modelled from the spec: PersistedTransaction (§3) held by the
persistence collaborator (§6 `create` / `existsByFingerprint`, implemented
by the transactions feature, which is outside these sources), restricted to
the fingerprint and the candidate content relevant to the dedup claims. -/
structure PRecord where
  raw_content_hash : String
  amount : Rat
  merchant_name : String
deriving DecidableEq, Repr

/-- The candidate dict returned by the extraction pipeline, restricted to
the fields the loop branches on. -/
structure Cand where
  amount : Rat
  merchant_name : String
deriving DecidableEq, Repr

/-- Outcome of the unprotected per-message region (extraction through
persistence): a candidate, or an exception that propagates to the outer
handler. -/
inductive ProcOutcome where
  | ok (cand : Cand)
  | raise (err : String)
deriving DecidableEq, Repr

/-- Whether the outcome is an exception. -/
def ProcOutcome.isRaise : ProcOutcome → Bool
  | .raise _ => true
  | .ok _ => false

/-- Environment supplying the outcomes of the external collaborators:
the Gmail fetch (`.error` is an exception, with its message), the
per-message extraction region, and the per-message wealth mapping
(`process_transaction_match`), whose exception is caught locally. -/
structure SyncEnv where
  fetch : Except String (List Msg)
  process : Msg → ProcOutcome
  wealth : Msg → Except String Bool

/-- The run counters and the persisted store threaded through the loop
(service.py lines 391-491).  Summary entries record the merchant and the
wealth-mapped flag of each created record. -/
structure RunState where
  store : List PRecord
  processedCount : Nat
  dedupSkipped : Nat
  llmFailed : Nat
  zeroSkipped : Nat
  summary : List (String × Bool)
deriving DecidableEq, Repr

/-- Fresh counters over an existing store (the loop starts at zero;
service.py lines 391-395). -/
def initialState (store : List PRecord) : RunState :=
  ⟨store, 0, 0, 0, 0, []⟩

/-- The per-message loop of `execute_sync` (service.py lines 397-491):
fingerprint, dedup lookup (`get_transaction_by_hash` — discard the message
if found), extraction, the zero-amount skip with its two counters,
record creation, and the locally-caught wealth mapping.  An exception from
the unprotected region aborts the loop, carrying the state reached so far
(already-committed records persist). -/
def runLoop (hashFn : String → String) (env : SyncEnv) :
    List Msg → RunState → Except (String × RunState) RunState
  | [], st => .ok st
  | m :: rest, st =>
    let h := fingerprint hashFn m
    if (st.store.map (fun r => r.raw_content_hash)).contains h then
      runLoop hashFn env rest { st with dedupSkipped := st.dedupSkipped + 1 }
    else
      match env.process m with
      | .raise err => .error (err, st)
      | .ok cand =>
        if pyAbs cand.amount == 0 then
          if cand.merchant_name == "UNCATEGORIZED" || cand.merchant_name == "UNKNOWN" then
            runLoop hashFn env rest { st with llmFailed := st.llmFailed + 1 }
          else
            runLoop hashFn env rest { st with zeroSkipped := st.zeroSkipped + 1 }
        else
          let wealthMapped := match env.wealth m with
            | .ok b => b
            | .error _ => false
          runLoop hashFn env rest
            { st with
              store := st.store ++ [⟨h, cand.amount, cand.merchant_name⟩]
              processedCount := st.processedCount + 1
              summary := st.summary ++ [(cand.merchant_name, wealthMapped)] }

/-- The state reached by the loop, whether it completed or aborted. -/
def runLoopState (hashFn : String → String) (env : SyncEnv)
    (msgs : List Msg) (st : RunState) : RunState :=
  match runLoop hashFn env msgs st with
  | .ok st' => st'
  | .error (_, st') => st'

/-- What the run records in its `SyncLog` entry plus the final state. -/
structure RunResult where
  final : RunState
  status : String
  recordsProcessed : Nat
  errorMessage : Option String
  notified : Bool
deriving DecidableEq, Repr

/-- Embedding of `execute_sync` (service.py lines 366-513): fetch, run the
loop, log SUCCESS with the processed count; any exception reaches the outer
handler, which logs FAILED with zero records — with the distinct message
"Gmail connection lost. Please reconnect." and a one-time user notification
when the exception is GMAIL_DISCONNECTED, and with the generic error text
otherwise. -/
def executeSync (hashFn : String → String) (env : SyncEnv)
    (store : List PRecord) : RunResult :=
  match env.fetch with
  | .error e =>
    if e == "GMAIL_DISCONNECTED" then
      ⟨initialState store, "FAILED", 0, some "Gmail connection lost. Please reconnect.", true⟩
    else
      ⟨initialState store, "FAILED", 0, some e, false⟩
  | .ok msgs =>
    if msgs.isEmpty then ⟨initialState store, "SUCCESS", 0, none, false⟩
    else
      match runLoop hashFn env msgs (initialState store) with
      | .ok st => ⟨st, "SUCCESS", st.processedCount, none, false⟩
      | .error (e, st) =>
        if e == "GMAIL_DISCONNECTED" then
          ⟨st, "FAILED", 0, some "Gmail connection lost. Please reconnect.", true⟩
        else
          ⟨st, "FAILED", 0, some e, false⟩

/-- Helper: when no message's extraction region raises, the loop completes
(wealth-mapping outcomes, including exceptions, are irrelevant to
completion) and every message is counted exactly once across the four
counters. -/
theorem runLoop_no_raise_ok (hashFn : String → String) (env : SyncEnv)
    (msgs : List Msg) : ∀ st : RunState,
    (∀ m ∈ msgs, (env.process m).isRaise = false) →
    runLoop hashFn env msgs st = .ok (runLoopState hashFn env msgs st) ∧
    (runLoopState hashFn env msgs st).processedCount +
      (runLoopState hashFn env msgs st).dedupSkipped +
      (runLoopState hashFn env msgs st).llmFailed +
      (runLoopState hashFn env msgs st).zeroSkipped =
    st.processedCount + st.dedupSkipped + st.llmFailed + st.zeroSkipped +
      msgs.length := by
  induction msgs with
  | nil =>
    intro st _
    exact ⟨rfl, by simp [runLoopState, runLoop]⟩
  | cons m rest ih =>
    intro st h
    have hm : (env.process m).isRaise = false := h m (by simp)
    have hrest : ∀ m' ∈ rest, (env.process m').isRaise = false :=
      fun m' hm' => h m' (by simp [hm'])
    by_cases hdup :
        ((st.store.map (fun r => r.raw_content_hash)).contains (fingerprint hashFn m)) = true
    · have key : runLoop hashFn env (m :: rest) st =
          runLoop hashFn env rest { st with dedupSkipped := st.dedupSkipped + 1 } := by
        simp only [runLoop]
        rw [if_pos hdup]
      have keyS : runLoopState hashFn env (m :: rest) st =
          runLoopState hashFn env rest { st with dedupSkipped := st.dedupSkipped + 1 } := by
        unfold runLoopState
        rw [key]
      obtain ⟨h1, h2⟩ := ih { st with dedupSkipped := st.dedupSkipped + 1 } hrest
      rw [key, keyS]
      refine ⟨h1, ?_⟩
      dsimp only at h2 ⊢
      simp only [List.length_cons]
      omega
    · cases hp : env.process m with
      | raise err => simp [ProcOutcome.isRaise, hp] at hm
      | ok cand =>
        by_cases hz : (pyAbs cand.amount == 0) = true
        · by_cases hu : (cand.merchant_name == "UNCATEGORIZED" ||
              cand.merchant_name == "UNKNOWN") = true
          · have key : runLoop hashFn env (m :: rest) st =
                runLoop hashFn env rest { st with llmFailed := st.llmFailed + 1 } := by
              simp only [runLoop]
              rw [if_neg hdup, hp]
              dsimp only
              rw [if_pos hz, if_pos hu]
            have keyS : runLoopState hashFn env (m :: rest) st =
                runLoopState hashFn env rest { st with llmFailed := st.llmFailed + 1 } := by
              unfold runLoopState
              rw [key]
            obtain ⟨h1, h2⟩ := ih { st with llmFailed := st.llmFailed + 1 } hrest
            rw [key, keyS]
            refine ⟨h1, ?_⟩
            dsimp only at h2 ⊢
            simp only [List.length_cons]
            omega
          · have key : runLoop hashFn env (m :: rest) st =
                runLoop hashFn env rest { st with zeroSkipped := st.zeroSkipped + 1 } := by
              simp only [runLoop]
              rw [if_neg hdup, hp]
              dsimp only
              rw [if_pos hz, if_neg hu]
            have keyS : runLoopState hashFn env (m :: rest) st =
                runLoopState hashFn env rest { st with zeroSkipped := st.zeroSkipped + 1 } := by
              unfold runLoopState
              rw [key]
            obtain ⟨h1, h2⟩ := ih { st with zeroSkipped := st.zeroSkipped + 1 } hrest
            rw [key, keyS]
            refine ⟨h1, ?_⟩
            dsimp only at h2 ⊢
            simp only [List.length_cons]
            omega
        · have key : runLoop hashFn env (m :: rest) st =
              runLoop hashFn env rest
                { st with
                  store := st.store ++
                    [⟨fingerprint hashFn m, cand.amount, cand.merchant_name⟩]
                  processedCount := st.processedCount + 1
                  summary := st.summary ++ [(cand.merchant_name,
                    match env.wealth m with | .ok b => b | .error _ => false)] } := by
            simp only [runLoop]
            rw [if_neg hdup, hp]
            dsimp only
            rw [if_neg hz]
          have keyS : runLoopState hashFn env (m :: rest) st =
              runLoopState hashFn env rest
                { st with
                  store := st.store ++
                    [⟨fingerprint hashFn m, cand.amount, cand.merchant_name⟩]
                  processedCount := st.processedCount + 1
                  summary := st.summary ++ [(cand.merchant_name,
                    match env.wealth m with | .ok b => b | .error _ => false)] } := by
            unfold runLoopState
            rw [key]
          obtain ⟨h1, h2⟩ := ih _ hrest
          rw [key, keyS]
          refine ⟨h1, ?_⟩
          dsimp only at h2 ⊢
          simp only [List.length_cons]
          omega

/-- Helper: the loop never modifies or removes an existing record — the
final store is the initial store plus appended records — and a store whose
fingerprints are pairwise distinct keeps that property, because a record is
only created after the fingerprint lookup fails.  This holds whether the
loop completes or aborts. -/
theorem runLoop_store_invariant (hashFn : String → String) (env : SyncEnv)
    (msgs : List Msg) : ∀ st : RunState,
    (∃ new, (runLoopState hashFn env msgs st).store = st.store ++ new) ∧
    ((st.store.map (fun r => r.raw_content_hash)).Nodup →
      ((runLoopState hashFn env msgs st).store.map
        (fun r => r.raw_content_hash)).Nodup) := by
  induction msgs with
  | nil =>
    intro st
    refine ⟨⟨[], by simp [runLoopState, runLoop]⟩, fun hn => ?_⟩
    simpa [runLoopState, runLoop] using hn
  | cons m rest ih =>
    intro st
    by_cases hdup :
        ((st.store.map (fun r => r.raw_content_hash)).contains (fingerprint hashFn m)) = true
    · have key : runLoop hashFn env (m :: rest) st =
          runLoop hashFn env rest { st with dedupSkipped := st.dedupSkipped + 1 } := by
        simp only [runLoop]
        rw [if_pos hdup]
      have keyS : runLoopState hashFn env (m :: rest) st =
          runLoopState hashFn env rest { st with dedupSkipped := st.dedupSkipped + 1 } := by
        unfold runLoopState
        rw [key]
      rw [keyS]
      exact ih { st with dedupSkipped := st.dedupSkipped + 1 }
    · cases hp : env.process m with
      | raise err =>
        have keyS : runLoopState hashFn env (m :: rest) st = st := by
          unfold runLoopState
          simp only [runLoop]
          rw [if_neg hdup, hp]
        rw [keyS]
        exact ⟨⟨[], by simp⟩, fun hn => hn⟩
      | ok cand =>
        by_cases hz : (pyAbs cand.amount == 0) = true
        · by_cases hu : (cand.merchant_name == "UNCATEGORIZED" ||
              cand.merchant_name == "UNKNOWN") = true
          · have key : runLoop hashFn env (m :: rest) st =
                runLoop hashFn env rest { st with llmFailed := st.llmFailed + 1 } := by
              simp only [runLoop]
              rw [if_neg hdup, hp]
              dsimp only
              rw [if_pos hz, if_pos hu]
            have keyS : runLoopState hashFn env (m :: rest) st =
                runLoopState hashFn env rest { st with llmFailed := st.llmFailed + 1 } := by
              unfold runLoopState
              rw [key]
            rw [keyS]
            exact ih { st with llmFailed := st.llmFailed + 1 }
          · have key : runLoop hashFn env (m :: rest) st =
                runLoop hashFn env rest { st with zeroSkipped := st.zeroSkipped + 1 } := by
              simp only [runLoop]
              rw [if_neg hdup, hp]
              dsimp only
              rw [if_pos hz, if_neg hu]
            have keyS : runLoopState hashFn env (m :: rest) st =
                runLoopState hashFn env rest { st with zeroSkipped := st.zeroSkipped + 1 } := by
              unfold runLoopState
              rw [key]
            rw [keyS]
            exact ih { st with zeroSkipped := st.zeroSkipped + 1 }
        · have key : runLoop hashFn env (m :: rest) st =
              runLoop hashFn env rest
                { st with
                  store := st.store ++
                    [⟨fingerprint hashFn m, cand.amount, cand.merchant_name⟩]
                  processedCount := st.processedCount + 1
                  summary := st.summary ++ [(cand.merchant_name,
                    match env.wealth m with | .ok b => b | .error _ => false)] } := by
            simp only [runLoop]
            rw [if_neg hdup, hp]
            dsimp only
            rw [if_neg hz]
          have keyS : runLoopState hashFn env (m :: rest) st =
              runLoopState hashFn env rest
                { st with
                  store := st.store ++
                    [⟨fingerprint hashFn m, cand.amount, cand.merchant_name⟩]
                  processedCount := st.processedCount + 1
                  summary := st.summary ++ [(cand.merchant_name,
                    match env.wealth m with | .ok b => b | .error _ => false)] } := by
            unfold runLoopState
            rw [key]
          rw [keyS]
          obtain ⟨⟨new1, hnew1⟩, hnd⟩ := ih
            { st with
              store := st.store ++
                [⟨fingerprint hashFn m, cand.amount, cand.merchant_name⟩]
              processedCount := st.processedCount + 1
              summary := st.summary ++ [(cand.merchant_name,
                match env.wealth m with | .ok b => b | .error _ => false)] }
          refine ⟨⟨⟨fingerprint hashFn m, cand.amount, cand.merchant_name⟩ :: new1, ?_⟩, ?_⟩
          · rw [hnew1]
            simp
          · intro hn
            apply hnd
            simp only [List.map_append, List.map_cons, List.map_nil]
            rw [List.nodup_append]
            refine ⟨hn, List.nodup_singleton _, ?_⟩
            intro a ha hb
            simp only [List.mem_singleton] at hb
            subst hb
            simp only [List.contains, List.elem_eq_mem, decide_eq_true_eq] at hdup
            exact hdup ha

/-! ## Claim C3 -/

/-- C3 counterexample.  The claim asserts that a failure raised while
processing one message never prevents subsequent messages of the same run
from being processed.  In `execute_sync` the per-message loop runs inside a
single try/except: with two fetched messages where extraction raises a
ValueError on the first, the whole run is logged FAILED with zero records
and the second message is never processed — the final store is empty. -/
theorem syncRun_extractionFailure_counterexample :
    executeSync (fun s => s)
      ⟨.ok [⟨"m1", "1700", "s1", "Subj1", "a@b.com", "body1"⟩,
            ⟨"m2", "1701", "s2", "Subj2", "a@b.com", "body2"⟩],
       fun m => if m.mid == "m1" then .raise "ValueError" else .ok ⟨500, "Amazon"⟩,
       fun _ => .ok false⟩ [] =
      ⟨⟨[], 0, 0, 0, 0, []⟩, "FAILED", 0, some "ValueError", false⟩ := by
  rfl

/-- C3 (amended): a secondary-classification (wealth-mapping) exception is
caught locally and never prevents subsequent messages — when no message's
extraction region raises, the loop completes whatever the wealth outcomes,
and every fetched message is counted exactly once as processed,
deduplicated, LLM-failed or zero-skipped.  An exception raised in the
extraction/persistence region of one non-duplicate message, however,
aborts the loop immediately, leaving the remaining messages unprocessed.
A credential failure (GMAIL_DISCONNECTED) from the mail fetch is recorded
as a distinct condition — the message "Gmail connection lost. Please
reconnect." plus a user notification — while any other fetch failure is
recorded with its own error text and no notification. -/
theorem syncRun_error_isolation (hashFn : String → String) (env : SyncEnv)
    (msgs : List Msg) (store : List PRecord) (m : Msg) (rest : List Msg)
    (err : String) (st : RunState) :
    ((∀ m' ∈ msgs, (env.process m').isRaise = false) →
      runLoop hashFn env msgs (initialState store) =
        .ok (runLoopState hashFn env msgs (initialState store)) ∧
      (runLoopState hashFn env msgs (initialState store)).processedCount +
        (runLoopState hashFn env msgs (initialState store)).dedupSkipped +
        (runLoopState hashFn env msgs (initialState store)).llmFailed +
        (runLoopState hashFn env msgs (initialState store)).zeroSkipped =
        msgs.length) ∧
    ((st.store.map (fun r => r.raw_content_hash)).contains
        (fingerprint hashFn m) = false →
      env.process m = .raise err →
      runLoop hashFn env (m :: rest) st = .error (err, st)) ∧
    (env.fetch = .error "GMAIL_DISCONNECTED" →
      executeSync hashFn env store =
        ⟨initialState store, "FAILED", 0,
          some "Gmail connection lost. Please reconnect.", true⟩) ∧
    (∀ e, env.fetch = .error e → e ≠ "GMAIL_DISCONNECTED" →
      executeSync hashFn env store =
        ⟨initialState store, "FAILED", 0, some e, false⟩) := by
  refine ⟨?_, ?_, ?_, ?_⟩
  · intro h
    obtain ⟨h1, h2⟩ := runLoop_no_raise_ok hashFn env msgs (initialState store) h
    refine ⟨h1, ?_⟩
    simpa [initialState] using h2
  · intro hdup hp
    simp only [runLoop]
    rw [if_neg (by rw [hdup]; exact by decide), hp]
  · intro hf
    unfold executeSync
    rw [hf]
    rfl
  · intro e hf hne
    unfold executeSync
    rw [hf]
    dsimp only
    rw [if_neg (by simpa using hne)]

/-- C3 witness: with the concrete two-message environment whose extraction
raises a ValueError on the first message, the loop aborts at that message,
returning the untouched initial state — the second message is left
unprocessed. -/
theorem syncRun_error_isolation_witness :
    runLoop (fun s => s)
      ⟨.ok [], fun m => if m.mid == "m1" then .raise "ValueError" else .ok ⟨500, "Amazon"⟩,
       fun _ => .ok false⟩
      [⟨"m1", "1700", "s1", "Subj1", "a@b.com", "body1"⟩,
       ⟨"m2", "1701", "s2", "Subj2", "a@b.com", "body2"⟩]
      (initialState []) =
      .error ("ValueError", initialState []) :=
  (syncRun_error_isolation (fun s => s)
      ⟨.ok [], fun m => if m.mid == "m1" then .raise "ValueError" else .ok ⟨500, "Amazon"⟩,
       fun _ => .ok false⟩
      [] []
      ⟨"m1", "1700", "s1", "Subj1", "a@b.com", "body1"⟩
      [⟨"m2", "1701", "s2", "Subj2", "a@b.com", "body2"⟩]
      "ValueError" (initialState [])).2.1 (by decide) (by decide)

/-! ## Claim C4 -/

/-- C4: the deduplication fingerprint is a deterministic function of the
(message identifier, delivery timestamp) pair; a sync run only ever appends
to the persisted store, never modifying or removing an existing record; and
when the store holds at most one record per fingerprint, it still does
after any run — so replaying an identical (id, timestamp) pair can neither
create a second record nor overwrite the first, whatever the extracted
content of the replay. -/
theorem dedup_fingerprint_once (hashFn : String → String) (env : SyncEnv)
    (store : List PRecord) (m m' : Msg)
    (hnodup : (store.map (fun r => r.raw_content_hash)).Nodup) :
    (m.mid = m'.mid → m.internalDate = m'.internalDate →
      fingerprint hashFn m = fingerprint hashFn m') ∧
    (∃ new, (executeSync hashFn env store).final.store = store ++ new) ∧
    ((executeSync hashFn env store).final.store.map
      (fun r => r.raw_content_hash)).Nodup := by
  have key : (∃ new, (executeSync hashFn env store).final.store = store ++ new) ∧
      ((executeSync hashFn env store).final.store.map
        (fun r => r.raw_content_hash)).Nodup := by
    cases hf : env.fetch with
    | error e =>
      unfold executeSync
      rw [hf]
      dsimp only
      by_cases he : (e == "GMAIL_DISCONNECTED") = true
      · rw [if_pos he]
        exact ⟨⟨[], by simp [initialState]⟩, by simpa [initialState] using hnodup⟩
      · rw [if_neg he]
        exact ⟨⟨[], by simp [initialState]⟩, by simpa [initialState] using hnodup⟩
    | ok msgs =>
      unfold executeSync
      rw [hf]
      dsimp only
      by_cases hempty : msgs.isEmpty = true
      · rw [if_pos hempty]
        exact ⟨⟨[], by simp [initialState]⟩, by simpa [initialState] using hnodup⟩
      · rw [if_neg hempty]
        obtain ⟨⟨new, hnew⟩, hnd⟩ := runLoop_store_invariant hashFn env msgs (initialState store)
        have hnodup0 : ((initialState store).store.map
            (fun r => r.raw_content_hash)).Nodup := by
          simpa [initialState] using hnodup
        cases hrun : runLoop hashFn env msgs (initialState store) with
        | ok st' =>
          have hst : runLoopState hashFn env msgs (initialState store) = st' := by
            unfold runLoopState
            rw [hrun]
          rw [hst] at hnew hnd
          dsimp only
          exact ⟨⟨new, by simpa [initialState] using hnew⟩, hnd hnodup0⟩
        | error p =>
          obtain ⟨e, st'⟩ := p
          have hst : runLoopState hashFn env msgs (initialState store) = st' := by
            unfold runLoopState
            rw [hrun]
          rw [hst] at hnew hnd
          dsimp only
          by_cases he : (e == "GMAIL_DISCONNECTED") = true
          · rw [if_pos he]
            exact ⟨⟨new, by simpa [initialState] using hnew⟩, hnd hnodup0⟩
          · rw [if_neg he]
            exact ⟨⟨new, by simpa [initialState] using hnew⟩, hnd hnodup0⟩
  refine ⟨?_, key.1, key.2⟩
  intro h1 h2
  unfold fingerprint dedupPayload
  rw [h1, h2]

/-- C4 witness: a run over two messages carrying the identical
("m1", "1700") pair whose extractions return different amounts (500 on the
first attempt, 999 on the replay): the final store still holds pairwise
distinct fingerprints. -/
theorem dedup_fingerprint_once_witness :
    ((executeSync (fun s => s)
      ⟨.ok [⟨"m1", "1700", "s", "Subj", "a@b.com", "body1"⟩,
            ⟨"m1", "1700", "s", "Subj", "a@b.com", "body2"⟩],
       fun m => .ok ⟨if m.body == "body1" then 500 else 999, "Amazon"⟩,
       fun _ => .ok true⟩ []).final.store.map
      (fun r => r.raw_content_hash)).Nodup :=
  (dedup_fingerprint_once (fun s => s)
      ⟨.ok [⟨"m1", "1700", "s", "Subj", "a@b.com", "body1"⟩,
            ⟨"m1", "1700", "s", "Subj", "a@b.com", "body2"⟩],
       fun m => .ok ⟨if m.body == "body1" then 500 else 999, "Amazon"⟩,
       fun _ => .ok true⟩ []
      ⟨"m1", "1700", "s", "Subj", "a@b.com", "body1"⟩
      ⟨"m1", "1700", "s", "Subj", "a@b.com", "body2"⟩
      (by decide)).2.2

/-- C4 instance: the same replayed pair, evaluated concretely — exactly one
record is created, keeping the first attempt's content (amount 500); the
replay with different content (amount 999) is counted as a dedup skip. -/
theorem dedup_replay_instance :
    executeSync (fun s => s)
      ⟨.ok [⟨"m1", "1700", "s", "Subj", "a@b.com", "body1"⟩,
            ⟨"m1", "1700", "s", "Subj", "a@b.com", "body2"⟩],
       fun m => .ok ⟨if m.body == "body1" then 500 else 999, "Amazon"⟩,
       fun _ => .ok true⟩ [] =
      ⟨⟨[⟨"m1:1700", 500, "Amazon"⟩], 1, 1, 0, 0, [("Amazon", true)]⟩,
        "SUCCESS", 1, none, false⟩ := by
  rfl

/-! ## Rule-based extractor (`RuleBasedExtractor`, sync/extractor.py)

The extractor's pattern tables are compiled `re` regexes — an external
library.  Each regex is embedded as an abstract match function: `String →
Bool` for the boolean signals (`re.search` used as a test) and `String →
Option String` for the capturing patterns (`match.group(1)`), supplied
through a configuration record mirroring the module-level tables.  The
theorems hold for every instantiation; concrete instantiations in the
witnesses and counterexamples record the behaviour of the actual regexes on
the concrete inputs tested. -/

/-- The pattern tables and sets of extractor.py, abstracted per pattern. -/
structure ExtractorCfg where
  trustedSenders : List String
  trustedSenderDomains : List String
  transactionSubjectPatterns : List (String → Bool)
  marketingSubjectPatterns : List (String → Bool)
  requiredBodySignals : List (String → Bool)
  supportingBodySignals : List (String → Bool)
  marketingBodySignals : List (String → Bool)
  amountPatterns : List (String → Option String)
  merchantPatterns : List (String → Option String)
  datePatterns : List (String → Option String)
  creditPattern : String → Bool
  creditCardPattern : String → Bool
  bankTokenPattern : String → Bool
  categoryMap : List (String × String × String)
  keywordCategoryMap : List (String × String × String)

/-- Generic splitter on a character predicate (empty groups kept, as in
Python's `str.split(sep)`). -/
def splitOnPred (p : Char → Bool) : List Char → List (List Char)
  | [] => [[]]
  | x :: rest =>
    let r := splitOnPred p rest
    if p x then [] :: r
    else
      match r with
      | g :: gs => (x :: g) :: gs
      | [] => [[x]]

/-- Python's `s.split(c)` for a single separator character. -/
def splitOnChar (c : Char) (cs : List Char) : List (List Char) :=
  splitOnPred (fun x => x == c) cs

/-- Python's `s.strip(">")`: drop leading and trailing `>` characters. -/
def stripGt (s : String) : String :=
  String.mk (((s.data.dropWhile (fun c => c == '>')).reverse.dropWhile
    (fun c => c == '>')).reverse)

/-- The sender-domain normalization of extractor.py line 306:
`sender.split("@")[-1].strip(">").lower()`. -/
def senderDomain (sender : String) : String :=
  pyLower (stripGt (String.mk ((splitOnChar '@' sender.data).getLastD [])))

/-- Embedding of `RuleBasedExtractor.is_transaction_email` (extractor.py
lines 296-337): six short-circuiting gates — sender trust, marketing
subject pressure (reject at 2 or more hits), transaction subject keyword,
marketing body pressure (reject at 3 or more hits), required body signal,
supporting body signal — returning the acceptance flag and the reason
string of the first failing gate. -/
def isTransactionEmail (cfg : ExtractorCfg) (subject body sender : String) :
    Bool × String :=
  let subjectLower := pyLower subject
  if sender != "" &&
      !cfg.trustedSenderDomains.contains (senderDomain sender) &&
      !cfg.trustedSenders.contains sender then
    (false, "UNTRUSTED_SENDER:" ++ senderDomain sender)
  else
    let marketingSubjectHits :=
      cfg.marketingSubjectPatterns.countP (fun p => p subjectLower)
    if 2 ≤ marketingSubjectHits then
      (false, "MARKETING_SUBJECT(" ++ toString marketingSubjectHits ++ " signals)")
    else if !(cfg.transactionSubjectPatterns.any (fun p => p subjectLower)) then
      (false, "NO_TXN_SUBJECT_KEYWORD")
    else
      let bodyMarketingHits := cfg.marketingBodySignals.countP (fun p => p body)
      if 3 ≤ bodyMarketingHits then
        (false, "MARKETING_BODY(" ++ toString bodyMarketingHits ++ " signals)")
      else
        let hasRequiredSignal := cfg.requiredBodySignals.any (fun p => p body)
        let hasSupportingSignal := cfg.supportingBodySignals.countP (fun p => p body)
        if !hasRequiredSignal then
          (false, "NO_REQUIRED_BODY_SIGNAL")
        else if hasSupportingSignal == 0 then
          (false, "NO_SUPPORTING_BODY_SIGNAL")
        else
          (true, "PASSED_ALL_LAYERS")

/-- Python's `raw.replace(",", "")` on the captured amount group. -/
def stripCommas (s : String) : String :=
  String.mk (s.data.filter (fun c => c != ','))

/-- Value of a digit string. -/
def digitsToNat (cs : List Char) : Nat :=
  cs.foldl (fun n c => n * 10 + (c.toNat - '0'.toNat)) 0

/-- Python's `float()` on the comma-stripped captures of the amount
regexes, whose shape is digits, an optional dot, digits (possibly empty on
either side); anything else — such as the empty string left by a
commas-only capture — raises ValueError, embedded as `none`. -/
def pyFloat (s : String) : Option Rat :=
  match splitOnChar '.' s.data with
  | [a] =>
    if a ≠ [] ∧ a.all (fun c => c.isDigit) then some ((digitsToNat a : Nat) : Rat)
    else none
  | [a, b] =>
    if (a ≠ [] ∨ b ≠ []) ∧ a.all (fun c => c.isDigit) ∧ b.all (fun c => c.isDigit) then
      some (((digitsToNat a : Nat) : Rat) + ((digitsToNat b : Nat) : Rat) / ((10 : Rat) ^ b.length))
    else none
  | _ => none

/-- The indexed scan of `RuleBasedExtractor.extract_amount` (extractor.py
lines 339-355): try the patterns in priority order; on a match, strip
commas and parse; a positive parse returns immediately with the confidence
flag `i < len(AMOUNT_PATTERNS) - 1` (the last pattern is the bare
fallback); a parse failure (ValueError) or a non-positive amount falls
through to the next pattern; exhaustion returns (0.0, False). -/
def extractAmountGo (text : String) (total : Nat) :
    List (String → Option String) → Nat → Rat × Bool
  | [], _ => (0, false)
  | p :: rest, i =>
    match p text with
    | some raw =>
      match pyFloat (stripCommas raw) with
      | some amount =>
        if 0 < amount then (amount, decide (i < total - 1))
        else extractAmountGo text total rest (i + 1)
      | none => extractAmountGo text total rest (i + 1)
    | none => extractAmountGo text total rest (i + 1)

/-- Embedding of `RuleBasedExtractor.extract_amount`. -/
def extractAmount (pats : List (String → Option String)) (text : String) :
    Rat × Bool :=
  extractAmountGo text pats.length pats 0

/-- A pattern yields a positive amount on this text: it matches and its
comma-stripped capture parses to a value greater than zero.  This is the
condition under which `extract_amount` stops at the pattern. -/
def yieldsPositive (p : String → Option String) (text : String) : Bool :=
  match p text with
  | some raw =>
    match pyFloat (stripCommas raw) with
    | some amount => decide (0 < amount)
    | none => false
  | none => false

/-- The amount `extract_amount` would take from this pattern. -/
def parsedAmount (p : String → Option String) (text : String) : Rat :=
  match p text with
  | some raw => (pyFloat (stripCommas raw)).getD 0
  | none => 0

/-- Whether a character is matched by the regex class `\s` (the merchant
captures only ever contain spaces, but the class is wider). -/
def isWsChar (c : Char) : Bool :=
  c == ' ' || c == '\t' || c == '\n' || c == '\r'

/-- Joining character groups with single spaces. -/
def joinWithSpace : List (List Char) → List Char
  | [] => []
  | [g] => g
  | g :: gs => g ++ ' ' :: joinWithSpace gs

/-- The whitespace cleanup of `extract_merchant` (extractor.py lines
365-367): `.strip()` then `re.sub(r'\s+', ' ', ·)` then `.strip()` —
collapse whitespace runs to single spaces and trim the ends. -/
def normalizeWs (s : String) : String :=
  String.mk (joinWithSpace ((splitOnPred isWsChar s.data).filter
    (fun g => !g.isEmpty)))

/-- ASCII uppercase of one character. -/
def upperChar (c : Char) : Char :=
  if 'a' ≤ c ∧ c ≤ 'z' then Char.ofNat (c.toNat - 32) else c

/-- Title-casing scan: a letter is uppercased when it does not follow a
letter, lowercased otherwise. -/
def titleChars (prevAlpha : Bool) : List Char → List Char
  | [] => []
  | c :: rest =>
    (if c.isAlpha then (if prevAlpha then lowerChar c else upperChar c) else c)
      :: titleChars c.isAlpha rest

/-- Python's `str.title()` (ASCII). -/
def pyTitle (s : String) : String :=
  String.mk (titleChars false s.data)

/-- Embedding of `RuleBasedExtractor.extract_merchant` (extractor.py lines
357-374): first capturing pattern whose cleaned-up capture is at least two
characters long and contains no bank-name token, returned title-cased. -/
def extractMerchant (pats : List (String → Option String))
    (bankToken : String → Bool) (text : String) : Option String :=
  match pats with
  | [] => none
  | p :: rest =>
    match p text with
    | some raw =>
      let merchant := normalizeWs raw
      if merchant.length < 2 then extractMerchant rest bankToken text
      else if bankToken merchant then extractMerchant rest bankToken text
      else some (pyTitle merchant)
    | none => extractMerchant rest bankToken text

/-- Embedding of `RuleBasedExtractor.extract_date`: first matching date
pattern's capture. -/
def extractDate (pats : List (String → Option String)) (text : String) :
    Option String :=
  pats.findSome? (fun p => p text)

/-- Embedding of `RuleBasedExtractor.detect_transaction_type`: CREDIT if
the credit-keyword pattern matches, DEBIT otherwise (the default). -/
def detectTransactionType (creditPattern : String → Bool) (text : String) :
    String :=
  if creditPattern text then "CREDIT" else "DEBIT"

/-- Embedding of `RuleBasedExtractor.detect_account_type`: CREDIT_CARD if
the credit-card pattern matches, SAVINGS otherwise. -/
def detectAccountType (creditCardPattern : String → Bool) (text : String) :
    String :=
  if creditCardPattern text then "CREDIT_CARD" else "SAVINGS"

/-- Embedding of `RuleBasedExtractor.categorize` (extractor.py lines
396-416): exact-substring lookup of the lowered merchant name against the
curated table, then the keyword table against the merchant name, then the
keyword table against the lowered full text, else Uncategorized. -/
def categorize (cfg : ExtractorCfg) (merchant text : String) :
    String × String :=
  let merchantLower := pyLower merchant
  match cfg.categoryMap.find? (fun e => pyIn e.1 merchantLower) with
  | some e => (e.2.1, e.2.2)
  | none =>
    match cfg.keywordCategoryMap.find? (fun e => pyIn e.1 merchantLower) with
    | some e => (e.2.1, e.2.2)
    | none =>
      let textLower := pyLower text
      match cfg.keywordCategoryMap.find? (fun e => pyIn e.1 textLower) with
      | some e => (e.2.1, e.2.2)
      | none => ("Uncategorized", "Uncategorized")

/-- The dict returned by `RuleBasedExtractor.extract`, with the two private
keys `_source` and `_needs_llm_fallback` as explicit fields. -/
structure RuleResult where
  amount : Rat
  currency : String
  merchant_name : String
  category : String
  sub_category : String
  account_type : String
  transaction_type : String
  extracted_date : Option String
  source : String
  needs_llm_fallback : Bool
deriving DecidableEq, Repr

/-- Embedding of `RuleBasedExtractor.extract` (extractor.py lines 418-466):
filter through the classifier, extract the amount (returning `none` — the
escalation signal — when it is zero), then merchant (UNKNOWN when no
pattern survives), transaction and account type, category and date; the
source tag records whether the amount came from a non-fallback pattern, and
the LLM-fallback flag is set when the amount is low-confidence or the
merchant is unknown. -/
def extract (cfg : ExtractorCfg) (subject body sender : String) :
    Option RuleResult :=
  let fullText := "Subject: " ++ subject ++ "\n" ++ body
  if !(isTransactionEmail cfg subject body sender).1 then none
  else
    let ab := extractAmount cfg.amountPatterns fullText
    if ab.1 == 0 then none
    else
      let merchant :=
        (extractMerchant cfg.merchantPatterns cfg.bankTokenPattern fullText).getD
          "UNKNOWN"
      let cs := categorize cfg merchant fullText
      some
        { amount := ab.1
          currency := "INR"
          merchant_name := merchant
          category := cs.1
          sub_category := cs.2
          account_type := detectAccountType cfg.creditCardPattern fullText
          transaction_type := detectTransactionType cfg.creditPattern fullText
          extracted_date := extractDate cfg.datePatterns body
          source := if ab.2 then "RULE_ENGINE" else "RULE_ENGINE_BARE_FALLBACK"
          needs_llm_fallback := !ab.2 || merchant == "UNKNOWN" }

/-! ## Confidence router (`SyncService.call_brain_api`, sync/service.py
lines 88-200)

The Groq/LLM collaborator is external; its two JSON responses (enrichment
and full extraction) are supplied by an environment.  `generate_json`
returning `None` (disabled, timeout, HTTP error, schema-parse failure) is
the `none` case. -/

/-- Parsed JSON of the enrichment call (`_groq_enrich`): each field may be
absent or null. -/
structure EnrichJson where
  merchant_name : Option String
  category : Option String
  sub_category : Option String
deriving DecidableEq, Repr

/-- Parsed JSON of the full-extraction call (`_groq_full_extract`). -/
structure FullJson where
  amount : Option Rat
  currency : Option String
  merchant_name : Option String
  category : Option String
  sub_category : Option String
  account_type : Option String
  transaction_type : Option String
deriving DecidableEq, Repr

/-- The LLM collaborator's behaviour for one message: whether it is
configured (`LLMService.is_enabled`), and the outcome of each call the
router might make (`none` models a failed or unavailable call). -/
structure LlmEnv where
  enabled : Bool
  enrichResponse : Option EnrichJson
  fullResponse : Option FullJson

/-- The dict `call_brain_api` returns (after the private keys are popped). -/
structure BrainOut where
  amount : Rat
  currency : String
  merchant_name : String
  category : String
  sub_category : String
  account_type : String
  transaction_type : String
  extracted_date : Option String
deriving DecidableEq, Repr

/-- Dropping the two popped private keys from a rule result. -/
def ruleToBrainOut (r : RuleResult) : BrainOut :=
  ⟨r.amount, r.currency, r.merchant_name, r.category, r.sub_category,
    r.account_type, r.transaction_type, r.extracted_date⟩

/-- Embedding of `_groq_enrich` (service.py lines 133-154): ask the LLM for
merchant and category only; on a response, overwrite each field only when
the returned value is truthy (`data.get(k) or rule_result[k]`); the
rule-extracted amount is never touched, and the (possibly updated) rule
result is always returned. -/
def groqEnrich (llm : LlmEnv) (r : RuleResult) : RuleResult :=
  match llm.enrichResponse with
  | some d =>
    { r with
      merchant_name := pyOrStr d.merchant_name r.merchant_name
      category := pyOrStr d.category r.category
      sub_category := pyOrStr d.sub_category r.sub_category }
  | none => r

/-- Embedding of `_fallback_txn` (service.py lines 191-200): the zero-amount
fallback record; the dict has no extracted_date key, read later as None. -/
def fallbackTxn : BrainOut :=
  ⟨0, "INR", "UNCATEGORIZED", "Uncategorized", "Uncategorized", "SAVINGS",
    "DEBIT", none⟩

/-- What the router returns together with the source label it logs and
whether any LLM call crossed the boundary. -/
structure BrainCall where
  result : BrainOut
  source : String
  aiCalled : Bool
deriving DecidableEq, Repr

/-- Embedding of `_groq_full_extract` (service.py lines 156-189): one full
LLM attempt; on a response, fill each field with its truthy value or the
documented default; on failure, the fallback record. -/
def groqFullExtract (llm : LlmEnv) : BrainCall :=
  match llm.fullResponse with
  | some d =>
    ⟨⟨d.amount.getD 0, pyOrStr d.currency "INR",
      pyOrStr d.merchant_name "UNKNOWN", pyOrStr d.category "Uncategorized",
      pyOrStr d.sub_category "Uncategorized", pyOrStr d.account_type "SAVINGS",
      pyOrStr d.transaction_type "DEBIT", none⟩, "GROQ_FULL", true⟩
  | none => ⟨fallbackTxn, "FALLBACK", true⟩

/-- Embedding of `SyncService.call_brain_api` (service.py lines 88-131):
rule extraction first; a confident rule result is returned immediately with
no LLM call; an unconfident one (bare-fallback amount or unknown merchant)
triggers an enrichment call when the LLM is enabled, else is returned
as-is; a message the rule engine filtered out gets one full LLM attempt
when enabled, else the zero-amount fallback.  The source field carries the
label each branch logs. -/
def callBrainApi (cfg : ExtractorCfg) (llm : LlmEnv)
    (text subject sender : String) : BrainCall :=
  match extract cfg subject text sender with
  | some r =>
    if !r.needs_llm_fallback then
      ⟨ruleToBrainOut r, r.source, false⟩
    else if llm.enabled then
      ⟨ruleToBrainOut (groqEnrich llm r), "RULE+GROQ_ENRICH", true⟩
    else
      ⟨ruleToBrainOut r, r.source ++ "_NO_GROQ", false⟩
  | none =>
    if llm.enabled then groqFullExtract llm
    else ⟨fallbackTxn, "FALLBACK_NO_GROQ", false⟩

/-- A concrete instantiation of the pattern tables, recording the behaviour
of the compiled regexes of extractor.py on the demonstration inputs used in
this file (subjects "debited alert" and "Your OTP for login"; bodies built
from "debited INR 500 / INR 0 via upi", optionally with "Merchant: Amazon").
List positions mirror the source tables: `amountPatterns` entry 0 is the
verb-anchored pattern, entries 1-3 the other context patterns (which do not
match these texts), entry 4 the bare last-resort pattern; `merchantPatterns`
entry 5 is the "Merchant:" pattern, the other six entries do not match
these texts. -/
def demoCfg : ExtractorCfg where
  trustedSenders := ["alerts@axisbank.com"]
  trustedSenderDomains := ["axisbank.com"]
  transactionSubjectPatterns :=
    [fun s => pyIn "debited" s, fun s => pyIn "credited" s, fun s => pyIn "alert" s]
  marketingSubjectPatterns := [fun s => pyIn "offer" s, fun s => pyIn "cashback" s]
  requiredBodySignals := [fun b => pyIn "debited" b]
  supportingBodySignals := [fun b => pyIn "upi" b]
  marketingBodySignals := [fun b => pyIn "click here" b]
  amountPatterns :=
    [fun t => if pyIn "debited INR 500" t then some "500"
      else if pyIn "debited INR 0" t then some "0" else none,
     fun _ => none, fun _ => none, fun _ => none,
     fun t => if pyIn "INR 500" t then some "500"
      else if pyIn "INR 0" t then some "0" else none]
  merchantPatterns :=
    [fun _ => none, fun _ => none, fun _ => none, fun _ => none, fun _ => none,
     fun t => if pyIn "Merchant: Amazon" t then some "Amazon" else none,
     fun _ => none]
  datePatterns := [fun _ => none, fun _ => none, fun _ => none, fun _ => none]
  creditPattern := fun t => pyIn "credited" (pyLower t)
  creditCardPattern := fun t => pyIn "credit card" (pyLower t)
  bankTokenPattern := fun m =>
    pyIn "axis" (pyLower m) || pyIn "hdfc" (pyLower m) || pyIn "bank" (pyLower m) ||
    pyIn "ltd" (pyLower m)
  categoryMap := [("amazon", "Shopping", "E-Commerce"),
                  ("netflix", "Entertainment", "Subscriptions")]
  keywordCategoryMap := [("hotel", "Travel", "Hotels")]

/-- An enabled LLM environment with successful responses, for the router
demonstrations. -/
def demoLlm : LlmEnv :=
  ⟨true, some ⟨some "Foo", some "Bar", some "Baz"⟩,
   some ⟨some 42, some "INR", some "Foo", some "Bar", some "Baz",
     some "SAVINGS", some "DEBIT"⟩⟩

/-! ## Claim C6 -/

/-- C6 counterexample.  The claim asserts that for every message passing
the classifier whose amount is found by a non-fallback pattern, no AI call
is made.  With the message "debited alert" / "debited INR 500 via upi" the
classifier passes and the amount 500 comes from pattern 0 (non-fallback,
confidence flag true) — but no merchant pattern matches, so
`_needs_llm_fallback` is set and the router issues an enrichment call:
`aiCalled` is true. -/
theorem confidenceRouter_noAiCall_counterexample :
    (isTransactionEmail demoCfg "debited alert" "debited INR 500 via upi" "").1
      = true ∧
    extractAmount demoCfg.amountPatterns
      ("Subject: " ++ "debited alert" ++ "\n" ++ "debited INR 500 via upi")
      = (500, true) ∧
    (callBrainApi demoCfg demoLlm "debited INR 500 via upi" "debited alert" "").aiCalled
      = true := by
  refine ⟨rfl, by decide, rfl⟩

/-- C6 (amended): for every message that passes the classifier, whose
amount is found by a non-fallback amount pattern, and for which a merchant
was extracted (so the LLM-fallback flag is clear), the router returns the
rule-extracted candidate unchanged with the rule-derived source tag
RULE_ENGINE and makes no call to the AI collaborator. -/
theorem confidenceRouter_ruleConfident (cfg : ExtractorCfg) (llm : LlmEnv)
    (text subject sender : String) (r : RuleResult)
    (hr : extract cfg subject text sender = some r)
    (hneeds : r.needs_llm_fallback = false) :
    callBrainApi cfg llm text subject sender = ⟨ruleToBrainOut r, r.source, false⟩ ∧
    r.source = "RULE_ENGINE" := by
  constructor
  · unfold callBrainApi
    rw [hr]
    simp [hneeds]
  · unfold extract at hr
    split at hr
    · simp at hr
    · dsimp only at hr
      split at hr
      · simp at hr
      · rw [Option.some.injEq] at hr
        subst hr
        simp only [Bool.or_eq_false_iff, Bool.not_eq_false'] at hneeds
        simp [hneeds.1]

/-- C6 witness: for the message "debited alert" / "debited INR 500 via upi
Merchant: Amazon" with the demonstration tables, extraction is
rule-confident (amount 500 from the non-fallback pattern, merchant Amazon)
and the router returns it with source RULE_ENGINE and no AI call. -/
theorem confidenceRouter_ruleConfident_witness :
    callBrainApi demoCfg demoLlm "debited INR 500 via upi Merchant: Amazon"
      "debited alert" "" =
      ⟨⟨500, "INR", "Amazon", "Shopping", "E-Commerce", "SAVINGS", "DEBIT", none⟩,
        "RULE_ENGINE", false⟩ :=
  (confidenceRouter_ruleConfident demoCfg demoLlm
    "debited INR 500 via upi Merchant: Amazon" "debited alert" ""
    ⟨500, "INR", "Amazon", "Shopping", "E-Commerce", "SAVINGS", "DEBIT", none,
      "RULE_ENGINE", false⟩
    (by decide) rfl).1

/-! ## Claim C7 -/

/-- C7 counterexample.  The claim asserts that extraction fails exactly
when no amount pattern matches the message text at all.  On the message
"debited alert" / "debited INR 0 via upi" the classifier passes and two
amount patterns match (capturing "0"), yet the parsed amount is not
positive, `extract_amount` returns (0.0, False), and extraction still
fails (returns the escalation signal). -/
theorem extractFails_patternMatched_counterexample :
    (isTransactionEmail demoCfg "debited alert" "debited INR 0 via upi" "").1
      = true ∧
    demoCfg.amountPatterns.any
      (fun p => (p ("Subject: " ++ "debited alert" ++ "\n" ++
        "debited INR 0 via upi")).isSome) = true ∧
    extract demoCfg "debited alert" "debited INR 0 via upi" "" = none := by
  refine ⟨rfl, rfl, rfl⟩

/-- Helper: the scanned amount is zero exactly when no pattern in the list
yields a positive parsed amount. -/
theorem extractAmountGo_zero_iff (text : String) (total : Nat) :
    ∀ (pats : List (String → Option String)) (i : Nat),
      ((extractAmountGo text total pats i).1 = 0 ↔
        ∀ q ∈ pats, yieldsPositive q text = false) := by
  intro pats
  induction pats with
  | nil =>
    intro i
    simp [extractAmountGo]
  | cons p rest ih =>
    intro i
    simp only [extractAmountGo, List.mem_cons, forall_eq_or_imp]
    cases hp : p text with
    | none =>
      have hyp : yieldsPositive p text = false := by
        unfold yieldsPositive
        rw [hp]
      simpa [hyp] using ih (i + 1)
    | some raw =>
      cases hpf : pyFloat (stripCommas raw) with
      | none =>
        have hyp : yieldsPositive p text = false := by
          unfold yieldsPositive
          rw [hp]
          dsimp only
          rw [hpf]
        simpa [hyp, hpf] using ih (i + 1)
      | some amount =>
        by_cases hpos : (0 : Rat) < amount
        · have hyp : yieldsPositive p text = true := by
            unfold yieldsPositive
            rw [hp]
            dsimp only
            rw [hpf]
            simpa using hpos
          dsimp only
          rw [hpf]
          dsimp only
          rw [if_pos hpos]
          simp [hyp, ne_of_gt hpos]
        · have hyp : yieldsPositive p text = false := by
            unfold yieldsPositive
            rw [hp]
            dsimp only
            rw [hpf]
            simpa using hpos
          dsimp only
          rw [hpf]
          dsimp only
          rw [if_neg hpos]
          simpa [hyp] using ih (i + 1)

/-- Helper: patterns that do not yield a positive amount are scanned past,
advancing the index. -/
theorem extractAmountGo_append (text : String) (total : Nat)
    (p : String → Option String) (pats2 : List (String → Option String)) :
    ∀ (pats1 : List (String → Option String)) (i : Nat),
      (∀ q ∈ pats1, yieldsPositive q text = false) →
      extractAmountGo text total (pats1 ++ p :: pats2) i =
        extractAmountGo text total (p :: pats2) (i + pats1.length) := by
  intro pats1
  induction pats1 with
  | nil =>
    intro i _
    simp
  | cons q rest ih =>
    intro i h
    have hq : yieldsPositive q text = false := h q (by simp)
    have hrest : ∀ q' ∈ rest, yieldsPositive q' text = false :=
      fun q' hq' => h q' (by simp [hq'])
    unfold yieldsPositive at hq
    have step : extractAmountGo text total ((q :: rest) ++ p :: pats2) i =
        extractAmountGo text total (rest ++ p :: pats2) (i + 1) := by
      simp only [List.cons_append, extractAmountGo]
      cases hqt : q text with
      | none => rfl
      | some raw =>
        rw [hqt] at hq
        dsimp only at hq ⊢
        split
        · rename_i amount heq
          rw [heq] at hq
          simp at hq
          rw [if_neg (by simpa using hq)]
          rfl
        · rfl
    rw [step, ih (i + 1) hrest]
    have harith : i + 1 + rest.length = i + (q :: rest).length := by
      simp [List.length_cons]
      omega
    rw [harith]

/-- C7 (amended): for a message that passed the classifier, rule-based
extraction fails (returns no candidate, signalling the caller to escalate)
exactly when no amount pattern yields a positive parsed amount — a pattern
can match the text and still fail extraction when its capture parses to
zero or does not parse; the amount patterns are tried in priority order and
the first pattern yielding a positive amount wins, with the candidate
flagged low-confidence exactly when that pattern is the last-resort bare
pattern. -/
theorem extractAmount_firstPositive_spec (cfg : ExtractorCfg)
    (subject body sender text : String)
    (pats1 pats2 : List (String → Option String)) (p : String → Option String) :
    ((isTransactionEmail cfg subject body sender).1 = true →
      (extract cfg subject body sender = none ↔
        ∀ q ∈ cfg.amountPatterns,
          yieldsPositive q ("Subject: " ++ subject ++ "\n" ++ body) = false)) ∧
    ((∀ q ∈ pats1, yieldsPositive q text = false) →
      yieldsPositive p text = true →
      extractAmount (pats1 ++ p :: pats2) text =
        (parsedAmount p text, !pats2.isEmpty)) := by
  constructor
  · intro hcl
    have hz := extractAmountGo_zero_iff
      ("Subject: " ++ subject ++ "\n" ++ body) cfg.amountPatterns.length
      cfg.amountPatterns 0
    have hext : extract cfg subject body sender = none ↔
        (extractAmount cfg.amountPatterns
          ("Subject: " ++ subject ++ "\n" ++ body)).1 = 0 := by
      unfold extract
      rw [hcl]
      rw [if_neg (by decide)]
      dsimp only
      by_cases h0 : ((extractAmount cfg.amountPatterns
          ("Subject: " ++ subject ++ "\n" ++ body)).1 == 0) = true
      · rw [if_pos h0]
        exact iff_of_true rfl (by simpa using h0)
      · rw [if_neg h0]
        exact iff_of_false (by simp) (by simpa using h0)
    rw [hext]
    exact hz
  · intro h1 hp
    unfold extractAmount
    rw [extractAmountGo_append text (pats1 ++ p :: pats2).length p pats2 pats1 0 h1]
    unfold yieldsPositive at hp
    simp only [extractAmountGo]
    cases hpt : p text with
    | none =>
      rw [hpt] at hp
      simp at hp
    | some raw =>
      rw [hpt] at hp
      dsimp only at hp ⊢
      split
      · rename_i amount heq
        rw [heq] at hp
        simp at hp
        rw [if_pos hp]
        have hval : parsedAmount p text = amount := by
          unfold parsedAmount
          rw [hpt]
          dsimp only
          rw [heq]
          rfl
        rw [hval]
        have hflag : decide (0 + pats1.length < (pats1 ++ p :: pats2).length - 1) =
            !pats2.isEmpty := by
          rcases pats2 with _ | ⟨x, xs⟩ <;>
            simp [List.length_append, List.length_cons]
        rw [hflag]
      · rename_i heq
        rw [heq] at hp
        simp at hp

/-- C7 witness: with a first pattern yielding nothing and a last-resort
pattern capturing "500", the scan stops at the last pattern with amount 500
and the low-confidence flag (the confidence bit is false). -/
theorem extractAmount_firstPositive_spec_witness :
    extractAmount
      [fun _ => none, fun t => if pyIn "INR 500" t then some "500" else none]
      "debited INR 500" = (500, false) := by
  have h := (extractAmount_firstPositive_spec demoCfg "" "" "" "debited INR 500"
    [fun _ => none] []
    (fun t => if pyIn "INR 500" t then some "500" else none)).2
    (by decide) (by decide)
  simpa using h

/-! ## Claim C8 -/

/-- C8: the classifier evaluates its six gates short-circuiting in the
fixed order — sender trust; marketing-subject pressure (reject at 2 or
more marketing-keyword hits); transaction-subject requirement;
marketing-body pressure (reject at 3 or more marketing-body hits);
required body signal; supporting body signal — returning the reject reason
of the first failing gate (UNTRUSTED_SENDER with the offending domain,
MARKETING_SUBJECT and MARKETING_BODY with their hit counts,
NO_TXN_SUBJECT_KEYWORD, NO_REQUIRED_BODY_SIGNAL, NO_SUPPORTING_BODY_SIGNAL
respectively), and accepting exactly when all six gates pass. -/
theorem isTransactionEmail_gates (cfg : ExtractorCfg)
    (subject body sender : String) :
    ((sender != "" &&
        !cfg.trustedSenderDomains.contains (senderDomain sender) &&
        !cfg.trustedSenders.contains sender) = true →
      isTransactionEmail cfg subject body sender =
        (false, "UNTRUSTED_SENDER:" ++ senderDomain sender)) ∧
    ((sender != "" &&
        !cfg.trustedSenderDomains.contains (senderDomain sender) &&
        !cfg.trustedSenders.contains sender) = false →
      2 ≤ cfg.marketingSubjectPatterns.countP (fun p => p (pyLower subject)) →
      isTransactionEmail cfg subject body sender =
        (false, "MARKETING_SUBJECT(" ++
          toString (cfg.marketingSubjectPatterns.countP
            (fun p => p (pyLower subject))) ++ " signals)")) ∧
    ((sender != "" &&
        !cfg.trustedSenderDomains.contains (senderDomain sender) &&
        !cfg.trustedSenders.contains sender) = false →
      cfg.marketingSubjectPatterns.countP (fun p => p (pyLower subject)) < 2 →
      cfg.transactionSubjectPatterns.any (fun p => p (pyLower subject)) = false →
      isTransactionEmail cfg subject body sender =
        (false, "NO_TXN_SUBJECT_KEYWORD")) ∧
    ((sender != "" &&
        !cfg.trustedSenderDomains.contains (senderDomain sender) &&
        !cfg.trustedSenders.contains sender) = false →
      cfg.marketingSubjectPatterns.countP (fun p => p (pyLower subject)) < 2 →
      cfg.transactionSubjectPatterns.any (fun p => p (pyLower subject)) = true →
      3 ≤ cfg.marketingBodySignals.countP (fun p => p body) →
      isTransactionEmail cfg subject body sender =
        (false, "MARKETING_BODY(" ++
          toString (cfg.marketingBodySignals.countP (fun p => p body)) ++
          " signals)")) ∧
    ((sender != "" &&
        !cfg.trustedSenderDomains.contains (senderDomain sender) &&
        !cfg.trustedSenders.contains sender) = false →
      cfg.marketingSubjectPatterns.countP (fun p => p (pyLower subject)) < 2 →
      cfg.transactionSubjectPatterns.any (fun p => p (pyLower subject)) = true →
      cfg.marketingBodySignals.countP (fun p => p body) < 3 →
      cfg.requiredBodySignals.any (fun p => p body) = false →
      isTransactionEmail cfg subject body sender =
        (false, "NO_REQUIRED_BODY_SIGNAL")) ∧
    ((sender != "" &&
        !cfg.trustedSenderDomains.contains (senderDomain sender) &&
        !cfg.trustedSenders.contains sender) = false →
      cfg.marketingSubjectPatterns.countP (fun p => p (pyLower subject)) < 2 →
      cfg.transactionSubjectPatterns.any (fun p => p (pyLower subject)) = true →
      cfg.marketingBodySignals.countP (fun p => p body) < 3 →
      cfg.requiredBodySignals.any (fun p => p body) = true →
      cfg.supportingBodySignals.countP (fun p => p body) = 0 →
      isTransactionEmail cfg subject body sender =
        (false, "NO_SUPPORTING_BODY_SIGNAL")) ∧
    ((isTransactionEmail cfg subject body sender).1 = true ↔
      ((sender != "" &&
          !cfg.trustedSenderDomains.contains (senderDomain sender) &&
          !cfg.trustedSenders.contains sender) = false ∧
        cfg.marketingSubjectPatterns.countP (fun p => p (pyLower subject)) < 2 ∧
        cfg.transactionSubjectPatterns.any (fun p => p (pyLower subject)) = true ∧
        cfg.marketingBodySignals.countP (fun p => p body) < 3 ∧
        cfg.requiredBodySignals.any (fun p => p body) = true ∧
        cfg.supportingBodySignals.countP (fun p => p body) ≠ 0)) := by
  unfold isTransactionEmail
  dsimp only
  have hne : ∀ (b : Bool), b = false → ¬ b = true := fun b hb => by simp [hb]
  refine ⟨?_, ?_, ?_, ?_, ?_, ?_, ?_⟩
  · intro h1
    rw [if_pos h1]
  · intro h1 h2
    rw [if_neg (hne _ h1), if_pos h2]
  · intro h1 h2 h3
    rw [if_neg (hne _ h1), if_neg (Nat.not_le.mpr h2),
      if_pos (show (!cfg.transactionSubjectPatterns.any
        (fun p => p (pyLower subject))) = true by rw [h3]; exact rfl)]
  · intro h1 h2 h3 h4
    rw [if_neg (hne _ h1), if_neg (Nat.not_le.mpr h2),
      if_neg (show ¬ (!cfg.transactionSubjectPatterns.any
        (fun p => p (pyLower subject))) = true by rw [h3]; exact by decide),
      if_pos h4]
  · intro h1 h2 h3 h4 h5
    rw [if_neg (hne _ h1), if_neg (Nat.not_le.mpr h2),
      if_neg (show ¬ (!cfg.transactionSubjectPatterns.any
        (fun p => p (pyLower subject))) = true by rw [h3]; exact by decide),
      if_neg (Nat.not_le.mpr h4),
      if_pos (show (!cfg.requiredBodySignals.any (fun p => p body)) = true by
        rw [h5]; exact rfl)]
  · intro h1 h2 h3 h4 h5 h6
    rw [if_neg (hne _ h1), if_neg (Nat.not_le.mpr h2),
      if_neg (show ¬ (!cfg.transactionSubjectPatterns.any
        (fun p => p (pyLower subject))) = true by rw [h3]; exact by decide),
      if_neg (Nat.not_le.mpr h4),
      if_neg (show ¬ (!cfg.requiredBodySignals.any (fun p => p body)) = true by
        rw [h5]; exact by decide),
      if_pos (show (cfg.supportingBodySignals.countP (fun p => p body) == 0) = true by
        rw [h6]; exact rfl)]
  · split_ifs <;> simp_all

/-- C8 witness: the subject "Your OTP for login" from a trusted sender
contains no transaction keyword: the classifier rejects at the third gate
with NO_TXN_SUBJECT_KEYWORD, regardless of sender trust. -/
theorem isTransactionEmail_gates_witness :
    isTransactionEmail demoCfg "Your OTP for login"
      "debited INR 500 via upi" "alerts@axisbank.com" =
      (false, "NO_TXN_SUBJECT_KEYWORD") :=
  (isTransactionEmail_gates demoCfg "Your OTP for login"
      "debited INR 500 via upi" "alerts@axisbank.com").2.2.1
    (by decide) (by decide) (by decide)

end Grip